import Mathlib

/-!
Verification development for the AccioJob component-generator web application.

The backend (Express + Mongoose + Redis) is shallowly embedded: the Mongo
`Session` collection is a list of documents, Redis is an association list of
keys to (absolute expiry time, value) pairs, and each Express route handler
becomes a pure function from its inputs and an environment (which decides
whether each awaited effect throws) to a response, a new state, and a trace
of the effects it performed.  Dates are modelled as natural-number instants
passed to each handler as `now`.
-/

set_option maxHeartbeats 1000000
set_option maxRecDepth 100000

/-- JSON values, as produced by `JSON.parse` / carried in `Mixed` Mongoose
fields and in route response bodies. -/
inductive Json where
  | null
  | bool (b : Bool)
  | num (n : Int)
  | str (s : String)
  | arr (elems : List Json)
  | obj (fields : List (String × Json))

/-- JavaScript truthiness of a JSON value (`if (x)`). -/
def jsTruthy : Json → Bool
  | Json.null => false
  | Json.bool b => b
  | Json.num n => !(n == 0)
  | Json.str s => !(s == "")
  | Json.arr _ => true
  | Json.obj _ => true

/-- One entry of `chatHistory` (backend/models/Session.js, chatMessageSchema):
role, content, timestamp (defaulted to the save instant), metadata. -/
structure ChatMessage where
  role : String
  content : String
  timestamp : Nat
  metadata : Json

/-- `componentCode` subdocument (backend/models/Session.js,
componentCodeSchema). -/
structure ComponentCode where
  jsx : String
  css : String
  tsx : String
  version : Nat
  lastModified : Nat

/-- `uiState.viewport` subdocument. -/
structure Viewport where
  width : Nat
  height : Nat

/-- `uiState` subdocument (backend/models/Session.js, uiStateSchema). -/
structure UIState where
  selectedElement : Option String
  properties : List (String × Json)
  viewport : Viewport
  theme : String

/-- A document of the `Session` collection (backend/models/Session.js,
sessionSchema).  `createdAt` comes from the schema's `timestamps: true`
option; the companion `updatedAt` timestamp is also maintained by that
option (Mongoose refreshes it on `save()` and on `findOneAndUpdate`). -/
structure SessionDoc where
  id : Nat
  userId : Nat
  title : String
  description : String
  chatHistory : List ChatMessage
  componentCode : ComponentCode
  uiState : UIState
  isActive : Bool
  lastAccessed : Nat
  tags : List String
  metadata : Json
  createdAt : Nat
  updatedAt : Nat

/-- Values stored in Redis (always written through `JSON.stringify`):
the session-data mirror payload written by the sessions router, the JSON
literal `null` written by the delete handler, or a generic cached JSON
value written by the AI router. -/
inductive RVal where
  | rnull
  | sess (chatHistory : List ChatMessage) (componentCode : ComponentCode) (uiState : UIState)
  | json (j : Json)

/-- JavaScript truthiness of a value read back from Redis
(`JSON.parse(data)` of the stored string). -/
def rvalTruthy : RVal → Bool
  | RVal.rnull => false
  | RVal.sess _ _ _ => true
  | RVal.json j => jsTruthy j

/-- The Redis keyspace: key, absolute expiry instant, stored value.
A key set with `setEx key ttl v` at instant `now` expires at `now + ttl`. -/
def RedisSt : Type := List (String × Nat × RVal)

/-- `client.setEx(key, ttl, JSON.stringify(data))` at instant `now`:
replaces any previous entry for `key`. -/
def rset (r : RedisSt) (now : Nat) (key : String) (ttl : Nat) (v : RVal) : RedisSt :=
  (key, now + ttl, v) :: r.filter (fun e => !(e.1 == key))

/-- `client.get(key)` at instant `now`: a key is visible only before its
expiry instant. -/
def rget (r : RedisSt) (now : Nat) (key : String) : Option RVal :=
  match r.find? (fun e => e.1 == key) with
  | some (_, exp, v) => if now < exp then some v else none
  | none => none

/-- `setSessionData(sessionId, data, ttl)` (backend/config/redis.js line 34):
writes `JSON.stringify(data)` under `session:{sessionId}` with expiry `ttl`. -/
def setSessionDataTTL (r : RedisSt) (now : Nat) (sessionId : String) (data : RVal) (ttl : Nat) : RedisSt :=
  rset r now ("session:" ++ sessionId) ttl data

/-- `setSessionData` with its default `ttl = 3600`, the form every caller in
backend/routes/sessions.js uses. -/
def setSessionData (r : RedisSt) (now : Nat) (sessionId : String) (data : RVal) : RedisSt :=
  setSessionDataTTL r now sessionId data 3600

/-- `getSessionData(sessionId)` (backend/config/redis.js line 39). -/
def getSessionData (r : RedisSt) (now : Nat) (sessionId : String) : Option RVal :=
  rget r now ("session:" ++ sessionId)

/-- `setCache(key, data, ttl)` (backend/config/redis.js line 50). -/
def setCacheTTL (r : RedisSt) (now : Nat) (key : String) (data : RVal) (ttl : Nat) : RedisSt :=
  rset r now key ttl data

/-- `setCache` with its default `ttl = 300`. -/
def setCache (r : RedisSt) (now : Nat) (key : String) (data : RVal) : RedisSt :=
  setCacheTTL r now key data 300

/-- `getCache(key)` (backend/config/redis.js line 55). -/
def getCache (r : RedisSt) (now : Nat) (key : String) : Option RVal :=
  rget r now key

/-- Base64 alphabet character (`Buffer.toString('base64')`). -/
def b64Char (n : Nat) : Char :=
  ("ABCDEFGHIJKLMNOPQRSTUVWXYZabcdefghijklmnopqrstuvwxyz0123456789+/").toList.getD n 'A'

/-- Standard base64 of a byte list, with `=` padding. -/
def b64Chunks : List Nat → List Char
  | b1 :: b2 :: b3 :: rest =>
    b64Char (b1 / 4) :: b64Char ((b1 % 4) * 16 + b2 / 16) ::
    b64Char ((b2 % 16) * 4 + b3 / 64) :: b64Char (b3 % 64) :: b64Chunks rest
  | [b1, b2] => [b64Char (b1 / 4), b64Char ((b1 % 4) * 16 + b2 / 16), b64Char ((b2 % 16) * 4), '=']
  | [b1] => [b64Char (b1 / 4), b64Char ((b1 % 4) * 16), '=', '=']
  | [] => []

/-- UTF-8 encoding of one character, as byte values. -/
def utf8Bytes (c : Char) : List Nat :=
  let n := c.toNat
  if n < 128 then [n]
  else if n < 2048 then [192 + n / 64, 128 + n % 64]
  else if n < 65536 then [224 + n / 4096, 128 + (n / 64) % 64, 128 + n % 64]
  else [240 + n / 262144, 128 + (n / 4096) % 64, 128 + (n / 64) % 64, 128 + n % 64]

/-- `Buffer.from(s).toString('base64')`: base64 of the UTF-8 bytes of `s`. -/
def base64Encode (s : String) : String :=
  String.mk (b64Chunks (s.toList.map utf8Bytes).flatten)

/-- Substring test on character lists (JS `String.includes` and the
substring semantics used to model `$regex` search filters). -/
def containsSub (pat : List Char) : List Char → Bool
  | [] => pat.isEmpty
  | c :: rest => pat.isPrefixOf (c :: rest) || containsSub pat rest

/-- Case-insensitive substring test (the `$options: 'i'` /
`new RegExp(search, 'i')` filters, with the search text taken literally). -/
def containsCI (needle hay : String) : Bool :=
  containsSub (needle.toList.map Char.toLower) (hay.toList.map Char.toLower)

/-- Match of one session document against the mongoose `{ _id, userId, isActive: true }`
filter used by every `:sessionId` route of backend/routes/sessions.js. -/
def activeMatch (uid sid : Nat) (d : SessionDoc) : Bool :=
  d.id == sid && d.userId == uid && d.isActive

/-- `Session.findOne({ _id, userId, isActive: true })`. -/
def findOneActive (store : List SessionDoc) (uid sid : Nat) : Option SessionDoc :=
  store.find? (activeMatch uid sid)

/-- `session.save()` persisting a modified document: replaces the stored
document with the same `_id`. -/
def saveDoc (store : List SessionDoc) (d : SessionDoc) : List SessionDoc :=
  store.map (fun e => if e.id == d.id then d else e)

/-- `Session.findOneAndUpdate({ _id, userId, isActive: true }, update, { new: true })`:
applies `f` to the first matching document and returns the updated document. -/
def foauActive (uid sid : Nat) (f : SessionDoc → SessionDoc) : List SessionDoc → Option SessionDoc × List SessionDoc
  | [] => (none, [])
  | d :: rest =>
    if activeMatch uid sid d then (some (f d), f d :: rest)
    else
      let p := foauActive uid sid f rest
      (p.1, d :: p.2)

/-- `session.addChatMessage(role, content, metadata)` followed by the
`save()` it performs (backend/models/Session.js line 145): pushes the
message (its `timestamp` defaulting to the save instant) and the
`pre('save')` hook plus `timestamps: true` refresh `lastAccessed`
and `updatedAt`. -/
def addChatMessage (d : SessionDoc) (role content : String) (metadata : Json) (now : Nat) : SessionDoc :=
  { d with
    chatHistory := d.chatHistory ++ [{ role := role, content := content, timestamp := now, metadata := metadata }],
    lastAccessed := now, updatedAt := now }

/-- `session.updateComponentCode(jsx, css, tsx)` (backend/models/Session.js
line 155) together with its `save()`. -/
def updateComponentCode (d : SessionDoc) (jsx css tsx : String) (now : Nat) : SessionDoc :=
  { d with
    componentCode := { jsx := jsx, css := css, tsx := tsx,
                       version := d.componentCode.version + 1, lastModified := now },
    lastAccessed := now, updatedAt := now }

/-- The partial UI state sent as the request body of PUT `/:sessionId/ui-state`. -/
structure UIPatch where
  selectedElement : Option (Option String)
  properties : Option (List (String × Json))
  viewport : Option Viewport
  theme : Option String

/-- `session.updateUIState(uiState)` (backend/models/Session.js line 165):
shallow merge `{ ...this.uiState, ...uiState }`, then `save()`. -/
def mergeUIState (ui : UIState) (p : UIPatch) : UIState :=
  { selectedElement := p.selectedElement.getD ui.selectedElement,
    properties := p.properties.getD ui.properties,
    viewport := p.viewport.getD ui.viewport,
    theme := p.theme.getD ui.theme }

/-- `updateUIState` with the saves it triggers on the document. -/
def applyUIState (d : SessionDoc) (p : UIPatch) (now : Nat) : SessionDoc :=
  { d with uiState := mergeUIState d.uiState p, lastAccessed := now, updatedAt := now }

/-- Effects a handler performs, in order: Session-collection calls, Redis
calls, and the single outbound `fetch` of the AI routes. -/
inductive Ev where
  | dbFind
  | dbCount
  | dbFindOne
  | dbSave
  | dbFindOneAndUpdate
  | redisGet (key : String)
  | redisSet (key : String) (ttl : Nat)
  | extFetch (url : String) (payload : String)
  deriving DecidableEq

/-- Calls against the Session collection (the document store). -/
def isStoreEv : Ev → Bool
  | Ev.dbFind => true
  | Ev.dbCount => true
  | Ev.dbFindOne => true
  | Ev.dbSave => true
  | Ev.dbFindOneAndUpdate => true
  | _ => false

/-- Number of document-store calls in a trace. -/
def storeCalls (tr : List Ev) : Nat := tr.countP isStoreEv

/-- Redis read events. -/
def isRedisGetEv : Ev → Bool
  | Ev.redisGet _ => true
  | _ => false

/-- Outbound HTTP (AI endpoint) events. -/
def isFetchEv : Ev → Bool
  | Ev.extFetch _ _ => true
  | _ => false

/-- The `stats` object shaped by GET `/:sessionId/stats`. -/
structure SessionStats where
  messageCount : Nat
  codeVersion : Nat
  lastModified : Nat
  createdAt : Nat
  lastAccessed : Nat
  userMessages : Nat
  assistantMessages : Nat

/-- The `pagination` object of GET `/`. -/
structure Pagination where
  page : Nat
  limit : Nat
  total : Nat
  pages : Nat

/-- JSON response bodies sent by the sessions and AI routers, one
constructor per body shape appearing in the source. -/
inductive RBody where
  | err (msg : String)
  | errDetails (msg details : String)
  | sessionsList (sessions : List SessionDoc) (pg : Pagination)
  | sessionBody (message : Option String) (d : SessionDoc)
  | deletedBody (message : String)
  | chatBody (message : String) (messageCount : Nat)
  | codeBody (message : String) (componentCode : ComponentCode)
  | uiBody (message : String) (uiState : UIState)
  | statsBody (stats : SessionStats)
  | aiBody (success : Bool) (data : RVal) (cached : Option Bool)

/-- An HTTP response: status code and JSON body. -/
structure Resp where
  status : Nat
  body : RBody

/-- Whether a response body carries an `error` field. -/
def hasErrorField : RBody → Bool
  | RBody.err _ => true
  | RBody.errDetails _ _ => true
  | _ => false

/-- Backend state: the Session collection and the Redis keyspace. -/
structure St where
  store : List SessionDoc
  redis : RedisSt

/-- Which awaited calls of a sessions-router handler throw: `none` means
the call succeeds, `some msg` means it throws with message `msg`. -/
structure SessEnv where
  findFail : Option String
  countFail : Option String
  findOneFail : Option String
  saveFail : Option String
  foauFail : Option String
  redisSetFail : Option String

/-- Query parameters of GET `/` (`page = 1`, `limit = 10` defaults). -/
structure ListQuery where
  page : Option Nat
  limit : Option Nat
  search : Option String

/-- The `$or` search filter of GET `/` over title, description and tags. -/
def matchesSearch (search : Option String) (d : SessionDoc) : Bool :=
  match search with
  | none => true
  | some s => containsCI s d.title || containsCI s d.description || d.tags.any (fun t => containsCI s t)

/-- The full GET `/` query `{ userId, isActive: true }` plus search. -/
def listQueryMatch (uid : Nat) (search : Option String) (d : SessionDoc) : Bool :=
  d.userId == uid && d.isActive && matchesSearch search d

/-- Stable insertion (descending `lastAccessed`) for `.sort({ lastAccessed: -1 })`. -/
def insertDescLA (x : SessionDoc) : List SessionDoc → List SessionDoc
  | [] => [x]
  | y :: ys => if y.lastAccessed < x.lastAccessed then x :: y :: ys else y :: insertDescLA x ys

/-- `.sort({ lastAccessed: -1 })` on the query result. -/
def sortDescLA : List SessionDoc → List SessionDoc
  | [] => []
  | x :: xs => insertDescLA x (sortDescLA xs)

/-- The `componentCode` default `ensureSessionDefaults` fabricates
(version 1, `lastModified` stamped with the shaping instant). -/
def defaultComponentCode (now : Nat) : ComponentCode :=
  { jsx := "", css := "", tsx := "", version := 1, lastModified := now }

/-- The `uiState` default `ensureSessionDefaults` fabricates. -/
def defaultUIState : UIState :=
  { selectedElement := none, properties := [], viewport := { width := 1200, height := 800 }, theme := "light" }

/-- Shape of one listed session: `.select('-chatHistory -componentCode -uiState')`
removes the three heavy fields and `ensureSessionDefaults` then re-fills
them with defaults. -/
def listShape (now : Nat) (d : SessionDoc) : SessionDoc :=
  { d with chatHistory := [], componentCode := defaultComponentCode now, uiState := defaultUIState }

/-- `Math.ceil(total / limit)` on naturals. -/
def ceilDiv (a b : Nat) : Nat := (a + b - 1) / b

/-- GET `/` (backend/routes/sessions.js line 31): list the user's active
sessions with pagination and optional search; `find` then `countDocuments`. -/
def getSessionsHandler (env : SessEnv) (now uid : Nat) (q : ListQuery) (st : St) : Resp × St × List Ev :=
  let page := q.page.getD 1
  let limit := q.limit.getD 10
  let skip := (page - 1) * limit
  match env.findFail with
  | some _ => (⟨500, RBody.err "Failed to fetch sessions"⟩, st, [Ev.dbFind])
  | none =>
    let matching := st.store.filter (listQueryMatch uid q.search)
    let sessions := ((sortDescLA matching).drop skip).take limit
    match env.countFail with
    | some _ => (⟨500, RBody.err "Failed to fetch sessions"⟩, st, [Ev.dbFind, Ev.dbCount])
    | none =>
      (⟨200, RBody.sessionsList (sessions.map (listShape now))
              { page := page, limit := limit, total := matching.length, pages := ceilDiv matching.length limit }⟩,
       st, [Ev.dbFind, Ev.dbCount])

/-- The cache payload GET `/:sessionId` and the three write routes store
under `session:{sessionId}`: `{ chatHistory, componentCode, uiState }`. -/
def sessPayload (d : SessionDoc) : RVal :=
  RVal.sess d.chatHistory d.componentCode d.uiState

/-- GET `/:sessionId` (backend/routes/sessions.js line 74): `findOne` on
`{ _id, userId, isActive: true }`, 404 when absent, otherwise cache the
session data in Redis and return the session. -/
def getSessionHandler (env : SessEnv) (now uid sid : Nat) (st : St) : Resp × St × List Ev :=
  match env.findOneFail with
  | some _ => (⟨500, RBody.err "Failed to fetch session"⟩, st, [Ev.dbFindOne])
  | none =>
    match findOneActive st.store uid sid with
    | none => (⟨404, RBody.err "Session not found"⟩, st, [Ev.dbFindOne])
    | some d =>
      match env.redisSetFail with
      | some _ => (⟨500, RBody.err "Failed to fetch session"⟩, st,
                   [Ev.dbFindOne, Ev.redisSet ("session:" ++ toString sid) 3600])
      | none =>
        (⟨200, RBody.sessionBody none d⟩,
         { st with redis := setSessionData st.redis now (toString sid) (sessPayload d) },
         [Ev.dbFindOne, Ev.redisSet ("session:" ++ toString sid) 3600])

/-- Request body of POST `/` (`title` falsy — absent or empty — is rejected). -/
structure CreateBody where
  title : String
  description : Option String
  tags : Option (List String)

/-- POST `/` (backend/routes/sessions.js line 103): validate `title`,
build the new session document with its defaults, `save()` it. -/
def createSessionHandler (env : SessEnv) (now uid newId : Nat) (b : CreateBody) (st : St) : Resp × St × List Ev :=
  if b.title == "" then (⟨400, RBody.err "Title is required"⟩, st, [])
  else
    let d : SessionDoc :=
      { id := newId, userId := uid, title := b.title,
        description := b.description.getD "",
        tags := b.tags.getD [],
        chatHistory := [],
        componentCode := { jsx := "", css := "", tsx := "", version := 1, lastModified := now },
        uiState := { selectedElement := none, properties := [],
                     viewport := { width := 1200, height := 800 }, theme := "light" },
        isActive := true, lastAccessed := now, metadata := Json.obj [],
        createdAt := now, updatedAt := now }
    match env.saveFail with
    | some _ => (⟨500, RBody.err "Failed to create session"⟩, st, [Ev.dbSave])
    | none =>
      (⟨201, RBody.sessionBody (some "Session created successfully") d⟩,
       { st with store := st.store ++ [d] }, [Ev.dbSave])

/-- Request body of PUT `/:sessionId` (absent fields are not written). -/
structure MetaBody where
  title : Option String
  description : Option String
  tags : Option (List String)

/-- The update document of PUT `/:sessionId`: provided metadata fields plus
`lastAccessed: new Date()`; `timestamps: true` also refreshes `updatedAt`. -/
def applyMeta (b : MetaBody) (now : Nat) (d : SessionDoc) : SessionDoc :=
  { d with title := b.title.getD d.title, description := b.description.getD d.description,
           tags := b.tags.getD d.tags, lastAccessed := now, updatedAt := now }

/-- PUT `/:sessionId` (backend/routes/sessions.js line 148): one
`findOneAndUpdate` with `{ new: true }`. -/
def updateSessionHandler (env : SessEnv) (now uid sid : Nat) (b : MetaBody) (st : St) : Resp × St × List Ev :=
  match env.foauFail with
  | some _ => (⟨500, RBody.err "Failed to update session"⟩, st, [Ev.dbFindOneAndUpdate])
  | none =>
    match foauActive uid sid (applyMeta b now) st.store with
    | (none, _) => (⟨404, RBody.err "Session not found"⟩, st, [Ev.dbFindOneAndUpdate])
    | (some d, store') =>
      (⟨200, RBody.sessionBody (some "Session updated successfully") d⟩,
       { st with store := store' }, [Ev.dbFindOneAndUpdate])

/-- The soft-delete update `{ isActive: false }` of DELETE `/:sessionId`;
`timestamps: true` also refreshes `updatedAt`. -/
def softDelete (now : Nat) (d : SessionDoc) : SessionDoc :=
  { d with isActive := false, updatedAt := now }

/-- DELETE `/:sessionId` (backend/routes/sessions.js line 183): soft delete
via `findOneAndUpdate`, then overwrite the Redis mirror with `null`. -/
def deleteSessionHandler (env : SessEnv) (now uid sid : Nat) (st : St) : Resp × St × List Ev :=
  match env.foauFail with
  | some _ => (⟨500, RBody.err "Failed to delete session"⟩, st, [Ev.dbFindOneAndUpdate])
  | none =>
    match foauActive uid sid (softDelete now) st.store with
    | (none, _) => (⟨404, RBody.err "Session not found"⟩, st, [Ev.dbFindOneAndUpdate])
    | (some _, store') =>
      match env.redisSetFail with
      | some _ => (⟨500, RBody.err "Failed to delete session"⟩, { st with store := store' },
                   [Ev.dbFindOneAndUpdate, Ev.redisSet ("session:" ++ toString sid) 3600])
      | none =>
        (⟨200, RBody.deletedBody "Session deleted successfully"⟩,
         { store := store', redis := setSessionData st.redis now (toString sid) RVal.rnull },
         [Ev.dbFindOneAndUpdate, Ev.redisSet ("session:" ++ toString sid) 3600])

/-- Request body of POST `/:sessionId/chat`. -/
structure ChatBody where
  role : String
  content : String
  metadata : Option Json

/-- POST `/:sessionId/chat` (backend/routes/sessions.js line 212): validate,
`findOne`, `addChatMessage` (a `save`), then refresh the Redis mirror. -/
def addChatHandler (env : SessEnv) (now uid sid : Nat) (b : ChatBody) (st : St) : Resp × St × List Ev :=
  if b.role == "" || b.content == "" then (⟨400, RBody.err "Role and content are required"⟩, st, [])
  else
    match env.findOneFail with
    | some _ => (⟨500, RBody.err "Failed to add chat message"⟩, st, [Ev.dbFindOne])
    | none =>
      match findOneActive st.store uid sid with
      | none => (⟨404, RBody.err "Session not found"⟩, st, [Ev.dbFindOne])
      | some d =>
        let d' := addChatMessage d b.role b.content (b.metadata.getD (Json.obj [])) now
        match env.saveFail with
        | some _ => (⟨500, RBody.err "Failed to add chat message"⟩, st, [Ev.dbFindOne, Ev.dbSave])
        | none =>
          match env.redisSetFail with
          | some _ => (⟨500, RBody.err "Failed to add chat message"⟩,
                       { st with store := saveDoc st.store d' },
                       [Ev.dbFindOne, Ev.dbSave, Ev.redisSet ("session:" ++ toString sid) 3600])
          | none =>
            (⟨200, RBody.chatBody "Chat message added successfully" d'.chatHistory.length⟩,
             { store := saveDoc st.store d', redis := setSessionData st.redis now (toString sid) (sessPayload d') },
             [Ev.dbFindOne, Ev.dbSave, Ev.redisSet ("session:" ++ toString sid) 3600])

/-- Request body of PUT `/:sessionId/code` (`tsx` defaults to `''`). -/
structure CodeBody where
  jsx : String
  css : String
  tsx : Option String

/-- PUT `/:sessionId/code` (backend/routes/sessions.js line 251): `findOne`,
`updateComponentCode` (a `save`), then refresh the Redis mirror. -/
def updateCodeHandler (env : SessEnv) (now uid sid : Nat) (b : CodeBody) (st : St) : Resp × St × List Ev :=
  match env.findOneFail with
  | some _ => (⟨500, RBody.err "Failed to update component code"⟩, st, [Ev.dbFindOne])
  | none =>
    match findOneActive st.store uid sid with
    | none => (⟨404, RBody.err "Session not found"⟩, st, [Ev.dbFindOne])
    | some d =>
      let d' := updateComponentCode d b.jsx b.css (b.tsx.getD "") now
      match env.saveFail with
      | some _ => (⟨500, RBody.err "Failed to update component code"⟩, st, [Ev.dbFindOne, Ev.dbSave])
      | none =>
        match env.redisSetFail with
        | some _ => (⟨500, RBody.err "Failed to update component code"⟩,
                     { st with store := saveDoc st.store d' },
                     [Ev.dbFindOne, Ev.dbSave, Ev.redisSet ("session:" ++ toString sid) 3600])
        | none =>
          (⟨200, RBody.codeBody "Component code updated successfully" d'.componentCode⟩,
           { store := saveDoc st.store d', redis := setSessionData st.redis now (toString sid) (sessPayload d') },
           [Ev.dbFindOne, Ev.dbSave, Ev.redisSet ("session:" ++ toString sid) 3600])

/-- PUT `/:sessionId/ui-state` (backend/routes/sessions.js line 286):
`findOne`, `updateUIState` (a `save`), then refresh the Redis mirror. -/
def updateUIStateHandler (env : SessEnv) (now uid sid : Nat) (p : UIPatch) (st : St) : Resp × St × List Ev :=
  match env.findOneFail with
  | some _ => (⟨500, RBody.err "Failed to update UI state"⟩, st, [Ev.dbFindOne])
  | none =>
    match findOneActive st.store uid sid with
    | none => (⟨404, RBody.err "Session not found"⟩, st, [Ev.dbFindOne])
    | some d =>
      let d' := applyUIState d p now
      match env.saveFail with
      | some _ => (⟨500, RBody.err "Failed to update UI state"⟩, st, [Ev.dbFindOne, Ev.dbSave])
      | none =>
        match env.redisSetFail with
        | some _ => (⟨500, RBody.err "Failed to update UI state"⟩,
                     { st with store := saveDoc st.store d' },
                     [Ev.dbFindOne, Ev.dbSave, Ev.redisSet ("session:" ++ toString sid) 3600])
        | none =>
          (⟨200, RBody.uiBody "UI state updated successfully" d'.uiState⟩,
           { store := saveDoc st.store d', redis := setSessionData st.redis now (toString sid) (sessPayload d') },
           [Ev.dbFindOne, Ev.dbSave, Ev.redisSet ("session:" ++ toString sid) 3600])

/-- The `stats` object of GET `/:sessionId/stats`. -/
def statsOf (d : SessionDoc) : SessionStats :=
  { messageCount := d.chatHistory.length,
    codeVersion := d.componentCode.version,
    lastModified := d.componentCode.lastModified,
    createdAt := d.createdAt,
    lastAccessed := d.lastAccessed,
    userMessages := (d.chatHistory.filter (fun m => m.role == "user")).length,
    assistantMessages := (d.chatHistory.filter (fun m => m.role == "assistant")).length }

/-- GET `/:sessionId/stats` (backend/routes/sessions.js line 321). -/
def getStatsHandler (env : SessEnv) (uid sid : Nat) (st : St) : Resp × St × List Ev :=
  match env.findOneFail with
  | some _ => (⟨500, RBody.err "Failed to get session statistics"⟩, st, [Ev.dbFindOne])
  | none =>
    match findOneActive st.store uid sid with
    | none => (⟨404, RBody.err "Session not found"⟩, st, [Ev.dbFindOne])
    | some d => (⟨200, RBody.statsBody (statsOf d)⟩, st, [Ev.dbFindOne])

/-- Prefix of `xs` through the last occurrence of `c`, or `none` when `c`
does not occur: the greedy tail of the JS regex match (any characters,
then a final occurrence of `c`). -/
def takeThruLast (c : Char) : List Char → Option (List Char)
  | [] => none
  | x :: xs =>
    match takeThruLast c xs with
    | some ys => some (x :: ys)
    | none => if x = c then some [x] else none

/-- One attempt of the regex engine to match an opening curly brace, any
characters, and a closing curly brace starting at the head of `cs` (the
backend pattern applied in the AI parse blocks, backend/routes/ai.js
line 106): the head must be an opening brace, and the greedy middle
extends through the last closing brace of the remainder. -/
def matchAt (cs : List Char) : Option (List Char) :=
  match cs with
  | x :: xs => if x = '\x7b' then (takeThruLast '\x7d' xs).map (fun ys => x :: ys) else none
  | [] => none

/-- `text.match` of the brace-extraction regex: the engine tries each start
position from the left and returns the first successful match. -/
def jsMatchBraces : List Char → Option (List Char)
  | [] => none
  | c :: cs =>
    match matchAt (c :: cs) with
    | some m => some m
    | none => jsMatchBraces cs

/-- Fallback object of the POST `/ai/generate` parse block
(backend/routes/ai.js lines 110-126): the raw text as `jsx`, empty
`css`/`tsx`, and a canned explanation. -/
def genFallback (text : String) : Json :=
  Json.obj [("jsx", Json.str text), ("css", Json.str ""), ("tsx", Json.str ""),
            ("explanation", Json.str "Generated component based on your request")]

/-- The POST `/ai/generate` parse block (backend/routes/ai.js lines
102-126): extract the brace-delimited substring, `JSON.parse` it
(`tryParse` stands for `JSON.parse`, `none` meaning it throws), and fall
back to `genFallback` when there is no match or parsing throws. -/
def parseGenerateText (tryParse : List Char → Option Json) (text : String) : Json :=
  match jsMatchBraces text.toList with
  | some m =>
    match tryParse m with
    | some j => j
    | none => genFallback text
  | none => genFallback text

/-- The `jsx`/`css`/`tsx` component-code object sent in AI request bodies. -/
structure CodeRef where
  jsx : String
  css : String
  tsx : String

/-- Fallback object of the POST `/ai/refine` parse block
(backend/routes/ai.js lines 212-228). -/
def refineFallback (cur : CodeRef) (text : String) : Json :=
  Json.obj [("jsx", Json.str text), ("css", Json.str cur.css), ("tsx", Json.str cur.tsx),
            ("explanation", Json.str "Refined component based on your request")]

/-- The POST `/ai/refine` parse block. -/
def parseRefineText (tryParse : List Char → Option Json) (cur : CodeRef) (text : String) : Json :=
  match jsMatchBraces text.toList with
  | some m =>
    match tryParse m with
    | some j => j
    | none => refineFallback cur text
  | none => refineFallback cur text

/-- Fallback object of the POST `/ai/variations` parse block
(backend/routes/ai.js lines 311-331). -/
def variationsFallback (base : CodeRef) (text : String) : Json :=
  Json.obj [("variations", Json.arr [Json.obj
    [("name", Json.str "Default Variation"), ("jsx", Json.str text),
     ("css", Json.str base.css), ("description", Json.str "Generated variation")]])]

/-- The POST `/ai/variations` parse block. -/
def parseVariationsText (tryParse : List Char → Option Json) (base : CodeRef) (text : String) : Json :=
  match jsMatchBraces text.toList with
  | some m =>
    match tryParse m with
    | some j => j
    | none => variationsFallback base text
  | none => variationsFallback base text

/-- Fallback analysis object with every field set to `msg` (the POST
`/ai/analyze` parse block uses "Analysis not available" when the regex
does not match and "Failed to analyze code" when `JSON.parse` throws). -/
def analyzeFallback (msg : String) : Json :=
  Json.obj [("analysis", Json.obj
    [("codeQuality", Json.str msg), ("performance", Json.str msg),
     ("accessibility", Json.str msg), ("security", Json.str msg),
     ("optimizations", Json.arr []), ("issues", Json.arr []),
     ("overallScore", Json.num 0)])]

/-- The POST `/ai/analyze` parse block (backend/routes/ai.js lines 415-447). -/
def parseAnalyzeText (tryParse : List Char → Option Json) (text : String) : Json :=
  match jsMatchBraces text.toList with
  | some m =>
    match tryParse m with
    | some j => j
    | none => analyzeFallback "Failed to analyze code"
  | none => analyzeFallback "Analysis not available"

/-- JavaScript truthiness of an optional string (absent or empty is falsy). -/
def strOptTruthy : Option String → Bool
  | some s => !(s == "")
  | none => false

/-- A chat-history message as sent in the POST `/ai/generate` body. -/
structure HistMsg where
  role : String
  content : String

/-- `generateComponentPrompt(userPrompt, existingCode, chatHistory)`
(backend/routes/ai.js lines 8-46): the instruction preamble, the user
request, optionally the existing code, optionally the last five
chat-history messages, and the JSON-format trailer. -/
def generateComponentPrompt (userPrompt : String) (existingCode : Option String) (chatHistory : List HistMsg) : String :=
  let base := "You are an expert React developer. Generate a complete React component based on the user\x27s request.\n\nIMPORTANT REQUIREMENTS:\n1. Generate a standalone React functional component (no imports needed)\n2. Use only React hooks (useState, useEffect) - no external libraries\n3. Include all CSS styles in a separate CSS block\n4. Make the component self-contained and preview-friendly\n5. Use semantic HTML elements and modern design principles\n6. Make the component responsive and accessible\n7. Use inline styles or CSS classes for styling\n8. Do NOT include import statements or export statements\n9. The component should work in a browser environment with React 18\n\nUser Request: " ++ userPrompt ++ "\n\n"
  let withCode :=
    if strOptTruthy existingCode then
      base ++ "\nExisting Code:\n" ++ existingCode.getD "" ++ "\n\nPlease modify/improve the existing code based on the new request."
    else base
  let withHist :=
    if chatHistory.length > 0 then
      withCode ++ "\n\nPrevious conversation context:\n" ++
        String.join ((chatHistory.drop (chatHistory.length - 5)).map (fun m => m.role ++ ": " ++ m.content ++ "\n"))
    else withCode
  withHist ++ "\n\nPlease provide the response in the following JSON format:\n\x7b\n  \"jsx\": \"// React JSX code here\",\n  \"css\": \"// CSS styles here\",\n  \"tsx\": \"// TypeScript version if applicable\",\n  \"explanation\": \"Brief explanation of the component and its features\"\n\x7d"

/-- The refine prompt template (backend/routes/ai.js lines 157-175). -/
def refinePrompt (cur : CodeRef) (userPrompt : String) : String :=
  "You are an expert React developer. Please refine/modify the existing React component based on the user\x27s request.\n\nCurrent Component Code:\n" ++ cur.jsx ++ "\n\nCSS:\n" ++ cur.css ++ "\n\nUser\x27s Refinement Request: " ++ userPrompt ++ "\n\nPlease provide the updated component in the same JSON format:\n\x7b\n  \"jsx\": \"// Updated React JSX code\",\n  \"css\": \"// Updated CSS styles\",\n  \"tsx\": \"// Updated TypeScript version if applicable\",\n  \"explanation\": \"Brief explanation of the changes made\"\n\x7d\n\nMake sure to preserve the existing functionality while applying the requested changes."

/-- The variations prompt template (backend/routes/ai.js lines 255-274). -/
def variationsPrompt (base : CodeRef) (count : Nat) : String :=
  "You are an expert React developer. Generate " ++ toString count ++ " different variations of the following React component. Each variation should have a different style, layout, or approach while maintaining the same core functionality.\n\nBase Component:\n" ++ base.jsx ++ "\n\nCSS:\n" ++ base.css ++ "\n\nPlease provide " ++ toString count ++ " variations in the following JSON format:\n\x7b\n  \"variations\": [\n    \x7b\n      \"name\": \"Variation 1 Name\",\n      \"jsx\": \"// JSX code for variation 1\",\n      \"css\": \"// CSS for variation 1\",\n      \"description\": \"Brief description of this variation\"\n    \x7d,\n    // ... more variations\n  ]\n\x7d"

/-- The analyze prompt template (backend/routes/ai.js lines 358-384). -/
def analyzePrompt (code : CodeRef) : String :=
  "You are an expert React developer and code reviewer. Analyze the following React component code and provide feedback on:\n\n1. Code quality and best practices\n2. Performance considerations\n3. Accessibility improvements\n4. Security considerations\n5. Suggested optimizations\n6. Potential bugs or issues\n\nComponent Code:\n" ++ code.jsx ++ "\n\nCSS:\n" ++ code.css ++ "\n\nPlease provide a comprehensive analysis in JSON format:\n\x7b\n  \"analysis\": \x7b\n    \"codeQuality\": \"Assessment of code quality\",\n    \"performance\": \"Performance considerations\",\n    \"accessibility\": \"Accessibility improvements\",\n    \"security\": \"Security considerations\",\n    \"optimizations\": [\"List of suggested optimizations\"],\n    \"issues\": [\"List of potential issues\"],\n    \"overallScore\": 85\n  \x7d\n\x7d"

/-- The single external endpoint all four AI routes call. -/
def geminiUrl (apiKey : String) : String :=
  "https://generativelanguage.googleapis.com/v1beta/models/gemini-2.0-flash:generateContent?key=" ++ apiKey

/-- One `parts` entry of a Gemini response. -/
structure GenPart where
  text : String

/-- `candidates[i].content` of a Gemini response (`parts` may be absent). -/
structure GenContent where
  parts : Option (List GenPart)

/-- One `candidates` entry (its `content` may be absent). -/
structure GenCandidate where
  content : Option GenContent

/-- A parsed Gemini response body (`candidates` may be absent). -/
structure GenResult where
  candidates : Option (List GenCandidate)

/-- The text-extraction checks of backend/routes/ai.js lines 93-100:
`candidates` nonempty, `content` present, `parts` nonempty; otherwise the
handler throws `'No content received from the API.'`. -/
def extractText (r : GenResult) : Option String :=
  match r.candidates with
  | some (c :: _) =>
    match c.content with
    | some ct =>
      match ct.parts with
      | some (p :: _) => some p.text
      | _ => none
    | none => none
  | _ => none

/-- Environment of one outbound `fetch` to the AI endpoint: the call (or
its body parsing) may throw, return a non-ok status with an optional error
message, or return a parsed result. -/
structure FetchOutcome where
  thrown : Option String
  ok : Bool
  status : Nat
  errMsg : Option String
  result : GenResult

/-- The fetch-and-extract block repeated verbatim in all four AI routes
(backend/routes/ai.js lines 80-100): propagate a thrown error, turn a
non-ok response into `errorData.error?.message` or the HTTP-status
message, and extract the candidate text. -/
def callGemini (fetch : FetchOutcome) : Except String String :=
  match fetch.thrown with
  | some m => Except.error m
  | none =>
    if !fetch.ok then
      Except.error (fetch.errMsg.getD ("HTTP error! status: " ++ toString fetch.status))
    else
      match extractText fetch.result with
      | none => Except.error "No content received from the API."
      | some text => Except.ok text

/-- Environment of POST `/ai/generate`: the two Redis calls may throw, the
fetch has an outcome, and `tryParse` stands for `JSON.parse`. -/
structure AiEnv where
  getCacheFail : Option String
  setCacheFail : Option String
  fetch : FetchOutcome
  tryParse : List Char → Option Json

/-- Request body of POST `/ai/generate`. -/
structure GenBody where
  prompt : String
  sessionId : Option Nat
  existingCode : Option String
  chatHistory : List HistMsg

/-- The cache key of POST `/ai/generate`: a function of the prompt alone
(backend/routes/ai.js line 58). -/
def aiCacheKey (prompt : String) : String :=
  "ai_generate:" ++ base64Encode prompt

/-- The cache consultation of POST `/ai/generate`: `getCache` followed by
the `if (cachedResult)` truthiness test. -/
def cacheLookup (r : RedisSt) (now : Nat) (k : String) : Option RVal :=
  match getCache r now k with
  | some v => if rvalTruthy v then some v else none
  | none => none

/-- POST `/ai/generate` (backend/routes/ai.js line 49): validate the
prompt, consult the prompt-keyed cache, otherwise call the AI endpoint,
parse its text, cache the parsed object for 3600 seconds and return it. -/
def generateHandler (env : AiEnv) (now : Nat) (apiKey : String) (b : GenBody) (st : St) : Resp × St × List Ev :=
  if b.prompt == "" then (⟨400, RBody.err "Prompt is required"⟩, st, [])
  else
    let cacheKey := aiCacheKey b.prompt
    match env.getCacheFail with
    | some m => (⟨500, RBody.errDetails "Failed to generate component" m⟩, st, [Ev.redisGet cacheKey])
    | none =>
      match cacheLookup st.redis now cacheKey with
      | some v => (⟨200, RBody.aiBody true v (some true)⟩, st, [Ev.redisGet cacheKey])
      | none =>
        let aiPrompt := generateComponentPrompt b.prompt b.existingCode b.chatHistory
        let url := geminiUrl apiKey
        match callGemini env.fetch with
        | Except.error m =>
          (⟨500, RBody.errDetails "Failed to generate component" m⟩, st,
           [Ev.redisGet cacheKey, Ev.extFetch url aiPrompt])
        | Except.ok text =>
          let parsed := parseGenerateText env.tryParse text
          match env.setCacheFail with
          | some m =>
            (⟨500, RBody.errDetails "Failed to generate component" m⟩, st,
             [Ev.redisGet cacheKey, Ev.extFetch url aiPrompt, Ev.redisSet cacheKey 3600])
          | none =>
            (⟨200, RBody.aiBody true (RVal.json parsed) (some false)⟩,
             { st with redis := setCacheTTL st.redis now cacheKey (RVal.json parsed) 3600 },
             [Ev.redisGet cacheKey, Ev.extFetch url aiPrompt, Ev.redisSet cacheKey 3600])

/-- Request body of POST `/ai/refine`. -/
structure RefineBody where
  prompt : String
  currentCode : Option CodeRef
  sessionId : Option Nat

/-- POST `/ai/refine` (backend/routes/ai.js line 147). -/
def refineHandler (fetch : FetchOutcome) (tryParse : List Char → Option Json) (apiKey : String) (b : RefineBody) (st : St) : Resp × St × List Ev :=
  if b.prompt == "" then (⟨400, RBody.err "Prompt and current code are required"⟩, st, [])
  else
    match b.currentCode with
    | none => (⟨400, RBody.err "Prompt and current code are required"⟩, st, [])
    | some cur =>
      let rp := refinePrompt cur b.prompt
      let url := geminiUrl apiKey
      match callGemini fetch with
      | Except.error m => (⟨500, RBody.errDetails "Failed to refine component" m⟩, st, [Ev.extFetch url rp])
      | Except.ok text =>
        (⟨200, RBody.aiBody true (RVal.json (parseRefineText tryParse cur text)) none⟩, st, [Ev.extFetch url rp])

/-- Request body of POST `/ai/variations` (`count` defaults to 3). -/
structure VariationsBody where
  baseCode : Option CodeRef
  count : Option Nat

/-- POST `/ai/variations` (backend/routes/ai.js line 245). -/
def variationsHandler (fetch : FetchOutcome) (tryParse : List Char → Option Json) (apiKey : String) (b : VariationsBody) (st : St) : Resp × St × List Ev :=
  match b.baseCode with
  | none => (⟨400, RBody.err "Base code is required"⟩, st, [])
  | some base =>
    let vp := variationsPrompt base (b.count.getD 3)
    let url := geminiUrl apiKey
    match callGemini fetch with
    | Except.error m => (⟨500, RBody.errDetails "Failed to generate variations" m⟩, st, [Ev.extFetch url vp])
    | Except.ok text =>
      (⟨200, RBody.aiBody true (RVal.json (parseVariationsText tryParse base text)) none⟩, st, [Ev.extFetch url vp])

/-- Request body of POST `/ai/analyze`. -/
structure AnalyzeBody where
  code : Option CodeRef

/-- POST `/ai/analyze` (backend/routes/ai.js line 348). -/
def analyzeHandler (fetch : FetchOutcome) (tryParse : List Char → Option Json) (apiKey : String) (b : AnalyzeBody) (st : St) : Resp × St × List Ev :=
  match b.code with
  | none => (⟨400, RBody.err "Code is required"⟩, st, [])
  | some code =>
    let ap := analyzePrompt code
    let url := geminiUrl apiKey
    match callGemini fetch with
    | Except.error m => (⟨500, RBody.errDetails "Failed to analyze component" m⟩, st, [Ev.extFetch url ap])
    | Except.ok text =>
      (⟨200, RBody.aiBody true (RVal.json (parseAnalyzeText tryParse text)) none⟩, st, [Ev.extFetch url ap])

/-- JS regex whitespace (the ASCII part of the class used by the editor's
strip patterns). -/
def jsSpace (c : Char) : Bool :=
  c == ' ' || c == '\t' || c == '\n' || c == '\r' || c == '\x0b' || c == '\x0c'

/-- `String.trim` on character lists. -/
def trimChars (cs : List Char) : List Char :=
  ((cs.dropWhile jsSpace).reverse.dropWhile jsSpace).reverse

/-- Match a literal token at the head, returning the remainder. -/
def litP (lit cs : List Char) : Option (List Char) :=
  if lit.isPrefixOf cs then some (cs.drop lit.length) else none

/-- Match one-or-more whitespace characters greedily, returning the
remainder. -/
def ws1P (cs : List Char) : Option (List Char) :=
  match cs with
  | c :: rest => if jsSpace c then some (rest.dropWhile jsSpace) else none
  | [] => none

/-- A single or double quotation mark (the quote class of the import
pattern, where the closing quote need not match the opening one). -/
def isQuote (c : Char) : Bool := c == '\x27' || c == '"'

/-- The quoted module name of the import pattern: an opening quote, a run
of non-quote characters, and a closing quote (either kind); returns the
remainder after the closing quote. -/
def quoteBody (cs : List Char) : Option (List Char) :=
  match cs with
  | q :: r =>
    if isQuote q then
      match r.dropWhile (fun c => !(isQuote c)) with
      | q2 :: r5 => if isQuote q2 then some r5 else none
      | [] => none
    else none
  | [] => none

/-- The optional semicolon after the module name. -/
def dropSemi (cs : List Char) : List Char :=
  match cs with
  | ';' :: r => r
  | _ => cs

/-- Tail of the import-statement pattern
(frontend/app/editor/[sessionId]/page.tsx line 211): the literal `from`,
whitespace, a quoted module name, an optional semicolon and trailing
whitespace. -/
def matchFromTail (cs : List Char) : Option (List Char) :=
  ((litP ['f', 'r', 'o', 'm'] cs).bind ws1P).bind (fun r2 =>
    (quoteBody r2).map (fun r5 => (dropSemi r5).dropWhile jsSpace))

/-- The lazy any-character-but-newline gap of the import pattern: try the
`from` tail at each position, stopping at a line terminator. -/
def lazyFrom : List Char → Option (List Char)
  | [] => none
  | c :: rest =>
    match matchFromTail (c :: rest) with
    | some r => some r
    | none => if c == '\n' || c == '\r' then none else lazyFrom rest

/-- One attempt of the import-strip regex at the current position. -/
def matchImportAt (cs : List Char) : Option (List Char) :=
  ((litP ['i', 'm', 'p', 'o', 'r', 't'] cs).bind ws1P).bind lazyFrom

/-- One attempt of the export-strip regex
(frontend/app/editor/[sessionId]/page.tsx line 212) at the current
position: the literal `export`, whitespace, and optionally the literal
`default` followed by whitespace. -/
def matchExportAt (cs : List Char) : Option (List Char) :=
  ((litP ['e', 'x', 'p', 'o', 'r', 't'] cs).bind ws1P).bind (fun r2 =>
    match litP ['d', 'e', 'f', 'a', 'u', 'l', 't'] r2 with
    | some r3 =>
      match ws1P r3 with
      | some r4 => some r4
      | none => some r2
    | none => some r2)

/-- Global regex replacement with the empty string: scan left to right,
resume after each match.  The fuel argument bounds the recursion; every
matcher used here consumes at least one character, so an initial fuel of
the input length never runs out (`replaceAllF_congr`). -/
def replaceAllF (m : List Char → Option (List Char)) : Nat → List Char → List Char
  | 0, cs => cs
  | _ + 1, [] => []
  | fuel + 1, c :: cs =>
    match m (c :: cs) with
    | some rest => replaceAllF m fuel rest
    | none => c :: replaceAllF m fuel cs

/-- `replaceAllF` with fuel equal to the input length. -/
def replaceAll (m : List Char → Option (List Char)) (cs : List Char) : List Char :=
  replaceAllF m cs.length cs

/-- `jsxCode.replace(importRegex, '')`. -/
def stripImports (cs : List Char) : List Char := replaceAll matchImportAt cs

/-- `jsxCode.replace(exportRegex, '')`. -/
def stripExports (cs : List Char) : List Char := replaceAll matchExportAt cs

/-- A word character of the `\w` class. -/
def isWordChar (c : Char) : Bool :=
  ('a' ≤ c && c ≤ 'z') || ('A' ≤ c && c ≤ 'Z') || ('0' ≤ c && c ≤ '9') || c == '_'

/-- One attempt of the component-name regex
(frontend/app/editor/[sessionId]/page.tsx line 215): `function` or
`const`, whitespace, then the captured word. -/
def matchNameAt (cs : List Char) : Option (List Char) :=
  let afterKw :=
    match litP ['f', 'u', 'n', 'c', 't', 'i', 'o', 'n'] cs with
    | some r => some r
    | none => litP ['c', 'o', 'n', 's', 't'] cs
  match afterKw with
  | none => none
  | some r1 =>
    match ws1P r1 with
    | none => none
    | some r2 =>
      let name := r2.takeWhile isWordChar
      if name.isEmpty then none else some name

/-- First match of the component-name regex over the whole code. -/
def findName : List Char → Option (List Char)
  | [] => none
  | c :: cs =>
    match matchNameAt (c :: cs) with
    | some n => some n
    | none => findName cs

/-- The placeholder component substituted when the cleaned code has no
`return` (frontend/app/editor/[sessionId]/page.tsx lines 219-228). -/
def placeholderJsx (componentName : String) : String :=
  "function " ++ componentName ++ "() \x7b\n  return (\n    <div style=\x7b\x7b padding: \x2720px\x27, fontFamily: \x27Arial, sans-serif\x27 \x7d\x7d>\n      <h1>Generated Component</h1>\n      <p>This is a placeholder component. Please check the generated code.</p>\n    </div>\n  );\n\x7d"

/-- The `errorBoundary` script fragment embedded in every preview document
(frontend/app/editor/[sessionId]/page.tsx lines 231-259). -/
def errorBoundaryStr : String :=
  "\n      class ErrorBoundary extends React.Component \x7b\n        constructor(props) \x7b\n          super(props);\n          this.state = \x7b hasError: false, error: null \x7d;\n        \x7d\n        \n        static getDerivedStateFromError(error) \x7b\n          return \x7b hasError: true, error \x7d;\n        \x7d\n        \n        componentDidCatch(error, errorInfo) \x7b\n          console.error(\x27Component Error:\x27, error, errorInfo);\n        \x7d\n        \n        render() \x7b\n          if (this.state.hasError) \x7b\n            return (\n              <div style=\x7b\x7b padding: \x2720px\x27, color: \x27red\x27, border: \x271px solid red\x27, borderRadius: \x274px\x27 \x7d\x7d>\n                <h3>Component Error</h3>\n                <p>\x7bthis.state.error?.message || \x27Something went wrong\x27\x7d</p>\n                <button onClick=\x7b() => this.setState(\x7b hasError: false \x7d)\x7d>Try Again</button>\n              </div>\n            );\n          \x7d\n          return this.props.children;\n        \x7d\n      \x7d\n    "

/-- The React UMD bundle URL loaded from the unpkg CDN. -/
def reactCdnUrl : String := "https://unpkg.com/react@18/umd/react.development.js"

/-- The ReactDOM UMD bundle URL loaded from the unpkg CDN. -/
def reactDomCdnUrl : String := "https://unpkg.com/react-dom@18/umd/react-dom.development.js"

/-- The Babel standalone transpiler URL loaded from the unpkg CDN. -/
def babelCdnUrl : String := "https://unpkg.com/@babel/standalone/babel.min.js"

/-- Preview document template up to the session CSS interpolation. -/
def htmlHead : String :=
  "\n      <!DOCTYPE html>\n      <html>\n        <head>\n          <meta charset=\"utf-8\">\n          <meta name=\"viewport\" content=\"width=device-width, initial-scale=1\">\n          <title>Component Preview</title>\n          <style>\n            * \x7b box-sizing: border-box; \x7d\n            body \x7b \n              margin: 0; \n              padding: 20px; \n              font-family: -apple-system, BlinkMacSystemFont, \x27Segoe UI\x27, Roboto, sans-serif; \n              background: #f5f5f5;\n            \x7d\n            #root \x7b \n              background: white; \n              border-radius: 8px; \n              box-shadow: 0 2px 10px rgba(0,0,0,0.1);\n              overflow: hidden;\n            \x7d\n            "

/-- Template from the CSS to the first CDN script URL. -/
def htmlMidA : String :=
  "\n          </style>\n        </head>\n        <body>\n          <div id=\"root\"></div>\n          <script crossorigin src=\""

/-- Template between the React and ReactDOM script URLs. -/
def htmlMidB : String :=
  "\"></script>\n          <script crossorigin src=\""

/-- Template between the ReactDOM and Babel script URLs. -/
def htmlMidC : String :=
  "\"></script>\n          <script src=\""

/-- Template from the Babel URL to the error-boundary fragment. -/
def htmlMidD : String :=
  "\"></script>\n          <script type=\"text/babel\" data-type=\"module\">\n            const \x7b useState, useEffect \x7d = React;\n            \n            "

/-- Template between the error boundary and the component code. -/
def htmlMidE : String :=
  "\n            \n            "

/-- Template between the component code and the render call. -/
def htmlMidF : String :=
  "\n            \n            // Render the component with error boundary\n            const root = ReactDOM.createRoot(document.getElementById(\x27root\x27));\n            root.render(\n              React.createElement(ErrorBoundary, null,\n                React.createElement("

/-- Closing template after the component name. -/
def htmlTail : String :=
  ")\n              )\n            );\n          </script>\n        </body>\n      </html>\n    "

/-- The assembled `htmlContent` string of `renderPreview`
(frontend/app/editor/[sessionId]/page.tsx lines 261-307). -/
def htmlContent (css jsxCode componentName : String) : String :=
  htmlHead ++ css ++ htmlMidA ++ reactCdnUrl ++ htmlMidB ++ reactDomCdnUrl ++ htmlMidC ++
    babelCdnUrl ++ htmlMidD ++ errorBoundaryStr ++ htmlMidE ++ jsxCode ++ htmlMidF ++
    componentName ++ htmlTail

/-- What `renderPreview` renders: the no-component placeholder pane, or an
iframe with a `srcDoc` document and a `sandbox` attribute. -/
inductive Preview where
  | empty
  | frame (srcDoc : String) (sandbox : String)

/-- The literal `return` searched with `jsxCode.includes('return')`. -/
def returnLit : List Char := ['r', 'e', 't', 'u', 'r', 'n']

/-- The fallback component name `'App'`. -/
def appName : List Char := ['A', 'p', 'p']

/-- `renderPreview` (frontend/app/editor/[sessionId]/page.tsx lines
194-336): with empty JSX the placeholder pane; otherwise trim the JSX,
strip import and export statements, extract the component name, use the
placeholder component when no `return` remains, and render the assembled
document in an iframe with `sandbox="allow-scripts allow-same-origin"`. -/
def renderPreview (code : ComponentCode) : Preview :=
  if code.jsx == "" then Preview.empty
  else
    let jsx2 := stripExports (stripImports (trimChars code.jsx.toList))
    let componentName := (findName jsx2).getD appName
    let jsxFinal :=
      if containsSub returnLit jsx2 then jsx2
      else (placeholderJsx (String.mk componentName)).toList
    Preview.frame (htmlContent code.css (String.mk jsxFinal) (String.mk componentName))
      "allow-scripts allow-same-origin"

/-- Modelled from the spec: the `auth` middleware required by every route
registration (`require('../middleware/auth')` — the middleware module
itself is not among the provided sources).  Per the spec, only
authenticated users reach the handlers: a request without a valid
authenticated user is rejected before the handler body runs, so no
document-store, Redis, or external call happens for it. -/
def withAuth (user : Option Nat) (st : St) (h : Nat → St → Resp × St × List Ev) : Resp × St × List Ev :=
  match user with
  | none => (⟨401, RBody.err "Authentication required"⟩, st, [])
  | some uid => h uid st

/-- One route registration: HTTP method, path, and whether the `auth`
middleware is listed in the registration. -/
structure Route where
  method : String
  path : String
  usesAuth : Bool

/-- The nine registrations of backend/routes/sessions.js, in source order. -/
def sessionsRoutes : List Route :=
  [{ method := "GET", path := "/", usesAuth := true },
   { method := "GET", path := "/:sessionId", usesAuth := true },
   { method := "POST", path := "/", usesAuth := true },
   { method := "PUT", path := "/:sessionId", usesAuth := true },
   { method := "DELETE", path := "/:sessionId", usesAuth := true },
   { method := "POST", path := "/:sessionId/chat", usesAuth := true },
   { method := "PUT", path := "/:sessionId/code", usesAuth := true },
   { method := "PUT", path := "/:sessionId/ui-state", usesAuth := true },
   { method := "GET", path := "/:sessionId/stats", usesAuth := true }]

/-- The four registrations of backend/routes/ai.js, in source order. -/
def aiRoutes : List Route :=
  [{ method := "POST", path := "/generate", usesAuth := true },
   { method := "POST", path := "/refine", usesAuth := true },
   { method := "POST", path := "/variations", usesAuth := true },
   { method := "POST", path := "/analyze", usesAuth := true }]

/-- GET `/` behind `auth`. -/
def getSessionsRoute (env : SessEnv) (now : Nat) (user : Option Nat) (q : ListQuery) (st : St) : Resp × St × List Ev :=
  withAuth user st (fun uid s => getSessionsHandler env now uid q s)

/-- GET `/:sessionId` behind `auth`. -/
def getSessionRoute (env : SessEnv) (now : Nat) (user : Option Nat) (sid : Nat) (st : St) : Resp × St × List Ev :=
  withAuth user st (fun uid s => getSessionHandler env now uid sid s)

/-- POST `/` behind `auth`. -/
def createSessionRoute (env : SessEnv) (now : Nat) (user : Option Nat) (newId : Nat) (b : CreateBody) (st : St) : Resp × St × List Ev :=
  withAuth user st (fun uid s => createSessionHandler env now uid newId b s)

/-- PUT `/:sessionId` behind `auth`. -/
def updateSessionRoute (env : SessEnv) (now : Nat) (user : Option Nat) (sid : Nat) (b : MetaBody) (st : St) : Resp × St × List Ev :=
  withAuth user st (fun uid s => updateSessionHandler env now uid sid b s)

/-- DELETE `/:sessionId` behind `auth`. -/
def deleteSessionRoute (env : SessEnv) (now : Nat) (user : Option Nat) (sid : Nat) (st : St) : Resp × St × List Ev :=
  withAuth user st (fun uid s => deleteSessionHandler env now uid sid s)

/-- POST `/:sessionId/chat` behind `auth`. -/
def addChatRoute (env : SessEnv) (now : Nat) (user : Option Nat) (sid : Nat) (b : ChatBody) (st : St) : Resp × St × List Ev :=
  withAuth user st (fun uid s => addChatHandler env now uid sid b s)

/-- PUT `/:sessionId/code` behind `auth`. -/
def updateCodeRoute (env : SessEnv) (now : Nat) (user : Option Nat) (sid : Nat) (b : CodeBody) (st : St) : Resp × St × List Ev :=
  withAuth user st (fun uid s => updateCodeHandler env now uid sid b s)

/-- PUT `/:sessionId/ui-state` behind `auth`. -/
def updateUIStateRoute (env : SessEnv) (now : Nat) (user : Option Nat) (sid : Nat) (p : UIPatch) (st : St) : Resp × St × List Ev :=
  withAuth user st (fun uid s => updateUIStateHandler env now uid sid p s)

/-- GET `/:sessionId/stats` behind `auth`. -/
def getStatsRoute (env : SessEnv) (user : Option Nat) (sid : Nat) (st : St) : Resp × St × List Ev :=
  withAuth user st (fun uid s => getStatsHandler env uid sid s)

/-- POST `/ai/generate` behind `auth`. -/
def generateRoute (env : AiEnv) (now : Nat) (user : Option Nat) (apiKey : String) (b : GenBody) (st : St) : Resp × St × List Ev :=
  withAuth user st (fun _ s => generateHandler env now apiKey b s)

/-- POST `/ai/refine` behind `auth`. -/
def refineRoute (fetch : FetchOutcome) (tryParse : List Char → Option Json) (user : Option Nat) (apiKey : String) (b : RefineBody) (st : St) : Resp × St × List Ev :=
  withAuth user st (fun _ s => refineHandler fetch tryParse apiKey b s)

/-- POST `/ai/variations` behind `auth`. -/
def variationsRoute (fetch : FetchOutcome) (tryParse : List Char → Option Json) (user : Option Nat) (apiKey : String) (b : VariationsBody) (st : St) : Resp × St × List Ev :=
  withAuth user st (fun _ s => variationsHandler fetch tryParse apiKey b s)

/-- POST `/ai/analyze` behind `auth`. -/
def analyzeRoute (fetch : FetchOutcome) (tryParse : List Char → Option Json) (user : Option Nat) (apiKey : String) (b : AnalyzeBody) (st : St) : Resp × St × List Ev :=
  withAuth user st (fun _ s => analyzeHandler fetch tryParse apiKey b s)

theorem litP_some {lit cs r : List Char} (h : litP lit cs = some r) :
    lit.length ≤ cs.length ∧ r.length = cs.length - lit.length := by
  unfold litP at h
  split at h
  · rename_i hp
    injection h with h'
    subst h'
    exact ⟨(List.isPrefixOf_iff_prefix.mp hp).length_le, by simp⟩
  · simp at h

theorem length_dropWhile_le (p : Char → Bool) (l : List Char) : (l.dropWhile p).length ≤ l.length :=
  (List.dropWhile_sublist p).length_le

theorem ws1P_lt {cs r : List Char} (h : ws1P cs = some r) : r.length < cs.length := by
  cases cs with
  | nil => simp [ws1P] at h
  | cons c rest =>
    simp only [ws1P] at h
    split at h
    · injection h with h'
      subst h'
      have := length_dropWhile_le jsSpace rest
      simp only [List.length_cons]
      omega
    · simp at h

theorem quoteBody_lt {cs r : List Char} (h : quoteBody cs = some r) : r.length < cs.length := by
  cases cs with
  | nil => simp [quoteBody] at h
  | cons q rest =>
    simp only [quoteBody] at h
    split at h
    · split at h
      · rename_i q2 r5 h4
        split at h
        · injection h with h'
          subst h'
          have hd := length_dropWhile_le (fun c => !(isQuote c)) rest
          rw [h4] at hd
          simp only [List.length_cons] at hd ⊢
          omega
        · exact Option.noConfusion h
      · exact Option.noConfusion h
    · exact Option.noConfusion h

theorem dropSemi_le (cs : List Char) : (dropSemi cs).length ≤ cs.length := by
  unfold dropSemi
  split <;> simp

theorem matchFromTail_le {cs r : List Char} (h : matchFromTail cs = some r) : r.length ≤ cs.length := by
  unfold matchFromTail at h
  rw [Option.bind_eq_some] at h
  obtain ⟨r2, h12, h3⟩ := h
  rw [Option.bind_eq_some] at h12
  obtain ⟨r1, h1, h2⟩ := h12
  rw [Option.map_eq_some'] at h3
  obtain ⟨r5, hq, hr⟩ := h3
  subst hr
  have l1 := (litP_some h1).2
  have l2 := ws1P_lt h2
  have l3 := quoteBody_lt hq
  have l4 := dropSemi_le r5
  have l5 := length_dropWhile_le jsSpace (dropSemi r5)
  omega

theorem lazyFrom_le : ∀ {cs r : List Char}, lazyFrom cs = some r → r.length ≤ cs.length := by
  intro cs
  induction cs with
  | nil => intro r h; simp [lazyFrom] at h
  | cons c rest ih =>
    intro r h
    unfold lazyFrom at h
    cases h1 : matchFromTail (c :: rest) with
    | some r' =>
      simp only [h1] at h
      injection h with h'
      subst h'
      exact matchFromTail_le h1
    | none =>
      simp only [h1] at h
      split at h
      · simp at h
      · have := ih h
        simp only [List.length_cons]
        omega

theorem matchImportAt_lt {cs r : List Char} (h : matchImportAt cs = some r) : r.length < cs.length := by
  unfold matchImportAt at h
  rw [Option.bind_eq_some] at h
  obtain ⟨r2, h12, h3⟩ := h
  rw [Option.bind_eq_some] at h12
  obtain ⟨r1, h1, h2⟩ := h12
  have l1 := litP_some h1
  have l2 := ws1P_lt h2
  have l3 := lazyFrom_le h3
  simp at l1
  omega

theorem matchExportAt_lt {cs r : List Char} (h : matchExportAt cs = some r) : r.length < cs.length := by
  unfold matchExportAt at h
  rw [Option.bind_eq_some] at h
  obtain ⟨r2, h12, h3⟩ := h
  rw [Option.bind_eq_some] at h12
  obtain ⟨r1, h1, h2⟩ := h12
  have l1 := litP_some h1
  have l2 := ws1P_lt h2
  simp at l1
  have hr : r.length ≤ r2.length := by
    split at h3
    · rename_i r3 h4
      split at h3
      · rename_i r4 h5
        injection h3 with h'
        subst h'
        have l3 := (litP_some h4).2
        have l4 := ws1P_lt h5
        omega
      · injection h3 with h'
        subst h'
        exact Nat.le_refl _
    · injection h3 with h'
      subst h'
      exact Nat.le_refl _
  omega

theorem replaceAllF_congr (m : List Char → Option (List Char))
    (hm : ∀ cs r, m cs = some r → r.length < cs.length) :
    ∀ (n : Nat) (cs : List Char), cs.length ≤ n → ∀ f g, cs.length ≤ f → cs.length ≤ g →
      replaceAllF m f cs = replaceAllF m g cs := by
  intro n
  induction n with
  | zero =>
    intro cs hcs f g hf hg
    have hnil : cs = [] := List.eq_nil_of_length_eq_zero (Nat.le_zero.mp hcs)
    subst hnil
    cases f <;> cases g <;> simp [replaceAllF]
  | succ n ih =>
    intro cs hcs f g hf hg
    match cs, hcs, hf, hg with
    | [], _, _, _ => cases f <;> cases g <;> simp [replaceAllF]
    | c :: cs', hcs, hf, hg =>
      simp only [List.length_cons] at hcs hf hg
      match f, g, hf, hg with
      | f' + 1, g' + 1, hf, hg =>
        simp only [replaceAllF]
        cases h : m (c :: cs') with
        | some rest =>
          have hr := hm _ _ h
          simp only [List.length_cons] at hr
          exact ih rest (by omega) f' g' (by omega) (by omega)
        | none =>
          rw [ih cs' (by omega) f' g' (by omega) (by omega)]

theorem replaceAll_cons (m : List Char → Option (List Char))
    (hm : ∀ cs r, m cs = some r → r.length < cs.length) (c : Char) (cs : List Char) :
    replaceAll m (c :: cs) =
      match m (c :: cs) with
      | some rest => replaceAll m rest
      | none => c :: replaceAll m cs := by
  unfold replaceAll
  simp only [List.length_cons, replaceAllF]
  cases h : m (c :: cs) with
  | some rest =>
    have hr := hm _ _ h
    simp only [List.length_cons] at hr
    exact replaceAllF_congr m hm rest.length rest (Nat.le_refl _) cs.length rest.length (by omega) (Nat.le_refl _)
  | none => rw [replaceAllF_congr m hm cs.length cs (Nat.le_refl _) cs.length cs.length (Nat.le_refl _) (Nat.le_refl _)]

/-- The import stripper satisfies the scan-and-resume recurrence of a
global regex replacement. -/
theorem stripImports_cons (c : Char) (cs : List Char) :
    stripImports (c :: cs) =
      match matchImportAt (c :: cs) with
      | some rest => stripImports rest
      | none => c :: stripImports cs :=
  replaceAll_cons matchImportAt (fun _ _ h => matchImportAt_lt h) c cs

/-- The export stripper satisfies the scan-and-resume recurrence of a
global regex replacement. -/
theorem stripExports_cons (c : Char) (cs : List Char) :
    stripExports (c :: cs) =
      match matchExportAt (c :: cs) with
      | some rest => stripExports rest
      | none => c :: stripExports cs :=
  replaceAll_cons matchExportAt (fun _ _ h => matchExportAt_lt h) c cs

theorem takeThruLast_eq_none {c : Char} : ∀ {xs : List Char}, takeThruLast c xs = none ↔ c ∉ xs := by
  intro xs
  induction xs with
  | nil => simp [takeThruLast]
  | cons x rest ih =>
    simp only [takeThruLast]
    cases h : takeThruLast c rest with
    | some ys =>
      have hc : c ∈ rest := by
        by_contra hn
        rw [← ih] at hn
        rw [h] at hn
        exact Option.noConfusion hn
      simp [hc]
    | none =>
      by_cases hx : x = c
      · subst hx
        simp
      · rw [if_neg hx]
        constructor
        · intro _ hmem
          cases List.mem_cons.mp hmem with
          | inl h1 => exact hx h1.symm
          | inr h2 => exact (ih.mp h) h2
        · intro _
          rfl

theorem takeThruLast_eq_some {c : Char} : ∀ {xs ys : List Char},
    takeThruLast c xs = some ys ↔ ∃ zs, xs = ys ++ zs ∧ ys.getLast? = some c ∧ c ∉ zs := by
  intro xs
  induction xs with
  | nil =>
    intro ys
    constructor
    · intro h
      exact absurd h (by simp [takeThruLast])
    · rintro ⟨zs, hx, hl, _⟩
      exfalso
      have hy : ys = [] := by
        cases ys with
        | nil => rfl
        | cons a as => exact absurd hx (by simp)
      subst hy
      simp at hl
  | cons x rest ih =>
    intro ys
    simp only [takeThruLast]
    cases h : takeThruLast c rest with
    | some ys' =>
      constructor
      · intro hh
        injection hh with hh'
        subst hh'
        obtain ⟨zs, hx, hl, hz⟩ := ih.mp h
        refine ⟨zs, by rw [hx, List.cons_append], ?_, hz⟩
        cases ys' with
        | nil => simp at hl
        | cons b l => rw [List.getLast?_cons_cons]; exact hl
      · rintro ⟨zs, hx, hl, hz⟩
        cases ys with
        | nil => simp at hl
        | cons y ys0 =>
          rw [List.cons_append] at hx
          injection hx with hx1 hx2
          subst hx1
          cases ys0 with
          | nil =>
            exfalso
            have hnone : takeThruLast c rest = none := takeThruLast_eq_none.mpr (by rw [hx2]; simpa using hz)
            rw [h] at hnone
            exact Option.noConfusion hnone
          | cons b l =>
            have hsome : takeThruLast c rest = some (b :: l) :=
              ih.mpr ⟨zs, hx2, by rw [List.getLast?_cons_cons] at hl; exact hl, hz⟩
            rw [h] at hsome
            injection hsome with hsome'
            rw [hsome']
    | none =>
      have hcrest : c ∉ rest := takeThruLast_eq_none.mp h
      by_cases hx : x = c
      · subst hx
        rw [if_pos rfl]
        constructor
        · intro hh
          injection hh with hh'
          subst hh'
          exact ⟨rest, rfl, by simp, hcrest⟩
        · rintro ⟨zs, hxx, hl, hz⟩
          cases ys with
          | nil => simp at hl
          | cons y ys0 =>
            rw [List.cons_append] at hxx
            injection hxx with h1 h2
            cases ys0 with
            | nil => rw [h1]
            | cons b l =>
              exfalso
              have hcl : x ∈ b :: l := by
                rw [List.getLast?_cons_cons] at hl
                exact List.mem_of_mem_getLast? hl
              apply hcrest
              rw [h2]
              exact List.mem_append_left _ hcl
      · rw [if_neg hx]
        constructor
        · intro hh
          exact Option.noConfusion hh
        · rintro ⟨zs, hxx, hl, hz⟩
          exfalso
          cases ys with
          | nil => simp at hl
          | cons y ys0 =>
            rw [List.cons_append] at hxx
            injection hxx with h1 h2
            cases ys0 with
            | nil =>
              simp at hl
              exact hx (h1.trans hl)
            | cons b l =>
              have hcl : c ∈ b :: l := by
                rw [List.getLast?_cons_cons] at hl
                exact List.mem_of_mem_getLast? hl
              apply hcrest
              rw [h2]
              exact List.mem_append_left _ hcl

theorem matchAt_eq_some {cs m : List Char} :
    matchAt cs = some m ↔
      ∃ post, cs = m ++ post ∧ m.head? = some '\x7b' ∧ m.getLast? = some '\x7d' ∧ '\x7d' ∉ post := by
  cases cs with
  | nil =>
    constructor
    · intro h
      exact absurd h (by simp [matchAt])
    · rintro ⟨post, hx, hh, _, _⟩
      exfalso
      cases m with
      | nil => simp at hh
      | cons a b => simp at hx
  | cons x xs =>
    simp only [matchAt]
    by_cases hx : x = '\x7b'
    · rw [if_pos hx]
      subst hx
      rw [Option.map_eq_some']
      constructor
      · rintro ⟨ys, hys, hm⟩
        subst hm
        obtain ⟨zs, hxz, hl, hz⟩ := takeThruLast_eq_some.mp hys
        refine ⟨zs, by rw [hxz, List.cons_append], by simp, ?_, hz⟩
        cases ys with
        | nil => simp at hl
        | cons b l => rw [List.getLast?_cons_cons]; exact hl
      · rintro ⟨post, hx2, hh, hl, hp⟩
        cases m with
        | nil => simp at hh
        | cons mh mt =>
          simp only [List.head?_cons, Option.some.injEq] at hh
          subst hh
          rw [List.cons_append] at hx2
          injection hx2 with h1 h2
          refine ⟨mt, takeThruLast_eq_some.mpr ⟨post, h2, ?_, hp⟩, rfl⟩
          cases mt with
          | nil =>
            simp at hl
          | cons b l =>
            rw [List.getLast?_cons_cons] at hl
            exact hl
    · rw [if_neg hx]
      constructor
      · intro hh
        exact Option.noConfusion hh
      · rintro ⟨post, hx2, hh, hl, hp⟩
        exfalso
        cases m with
        | nil => simp at hh
        | cons mh mt =>
          simp only [List.head?_cons, Option.some.injEq] at hh
          subst hh
          rw [List.cons_append] at hx2
          injection hx2 with h1 _
          exact hx h1

theorem braceMatch_unique {m post m0 post0 : List Char}
    (he : m ++ post = m0 ++ post0)
    (hl : m.getLast? = some '\x7d') (hp : '\x7d' ∉ post)
    (hl0 : m0.getLast? = some '\x7d') (hp0 : '\x7d' ∉ post0) : m = m0 := by
  rcases List.append_eq_append_iff.mp he with ⟨t, h1, h2⟩ | ⟨t, h1, h2⟩
  · cases t with
    | nil => rw [h1]; simp
    | cons a s =>
      exfalso
      rw [h1, List.getLast?_append_of_ne_nil _ (by simp)] at hl0
      apply hp
      rw [h2]
      exact List.mem_append_left _ (List.mem_of_mem_getLast? hl0)
  · cases t with
    | nil => rw [h1]; simp
    | cons a s =>
      exfalso
      rw [h1, List.getLast?_append_of_ne_nil _ (by simp)] at hl
      apply hp0
      rw [h2]
      exact List.mem_append_left _ (List.mem_of_mem_getLast? hl)

theorem matchAt_ne_none_of_mem {cs' : List Char} (h : '\x7d' ∈ cs') :
    matchAt ('\x7b' :: cs') ≠ none := by
  simp only [matchAt, if_pos rfl]
  cases hT : takeThruLast '\x7d' cs' with
  | none => exact absurd h (takeThruLast_eq_none.mp hT)
  | some ys => simp

theorem jsMatchBraces_eq_some : ∀ {cs m : List Char},
    jsMatchBraces cs = some m ↔
      ∃ pre post, cs = pre ++ m ++ post ∧ '\x7b' ∉ pre ∧ m.head? = some '\x7b' ∧
        m.getLast? = some '\x7d' ∧ '\x7d' ∉ post := by
  intro cs
  induction cs with
  | nil =>
    intro m
    constructor
    · intro h
      exact absurd h (by simp [jsMatchBraces])
    · rintro ⟨pre, post, hx, _, hh, _, _⟩
      exfalso
      cases m with
      | nil => simp at hh
      | cons a b =>
        cases pre <;> simp at hx
  | cons c cs' ih =>
    intro m
    simp only [jsMatchBraces]
    cases hA : matchAt (c :: cs') with
    | some m0 =>
      obtain ⟨post0, hx0, hh0, hl0, hp0⟩ := matchAt_eq_some.mp hA
      constructor
      · intro hh
        injection hh with hh'
        subst hh'
        exact ⟨[], post0, by simpa using hx0, by simp, hh0, hl0, hp0⟩
      · rintro ⟨pre, post, hx, hpre, hh2, hl, hp⟩
        have hc : c = '\x7b' := by
          cases m0 with
          | nil => simp at hh0
          | cons m0h m0t =>
            simp only [List.head?_cons, Option.some.injEq] at hh0
            rw [List.cons_append] at hx0
            injection hx0 with h1 _
            rw [h1, hh0]
        cases pre with
        | cons p pre' =>
          exfalso
          simp only [List.cons_append, List.append_assoc] at hx
          injection hx with h1 _
          apply hpre
          rw [← hc, ← h1]
          exact List.mem_cons_self _ _
        | nil =>
          simp only [List.nil_append] at hx
          have he : m ++ post = m0 ++ post0 := by rw [← hx]; exact hx0
          have hm : m = m0 := braceMatch_unique he hl hp hl0 hp0
          rw [hm]
    | none =>
      rw [ih]
      constructor
      · rintro ⟨pre, post, hx, hpre, hh2, hl, hp⟩
        have hmem : '\x7d' ∈ cs' := by
          rw [hx]
          exact List.mem_append_left _ (List.mem_append_right _ (List.mem_of_mem_getLast? hl))
        refine ⟨c :: pre, post, by rw [hx]; simp, ?_, hh2, hl, hp⟩
        intro hmemc
        cases List.mem_cons.mp hmemc with
        | inl h1 =>
          rw [← h1] at hA
          exact matchAt_ne_none_of_mem hmem hA
        | inr h2 => exact hpre h2
      · rintro ⟨pre, post, hx, hpre, hh2, hl, hp⟩
        cases pre with
        | nil =>
          exfalso
          simp only [List.nil_append] at hx
          cases m with
          | nil => simp at hh2
          | cons mh mt =>
            simp only [List.head?_cons, Option.some.injEq] at hh2
            subst hh2
            rw [List.cons_append] at hx
            injection hx with h1 h2
            have hmem : '\x7d' ∈ cs' := by
              rw [h2]
              apply List.mem_append_left
              cases mt with
              | nil => simp at hl
              | cons b l =>
                rw [List.getLast?_cons_cons] at hl
                exact List.mem_of_mem_getLast? hl
            rw [h1] at hA
            exact matchAt_ne_none_of_mem hmem hA
        | cons p pre' =>
          simp only [List.cons_append, List.append_assoc] at hx
          injection hx with h1 h2
          refine ⟨pre', post, by rw [h2, List.append_assoc], ?_, hh2, hl, hp⟩
          intro hmem
          exact hpre (List.mem_cons.mpr (Or.inr hmem))

theorem rget_rset_self (r : RedisSt) (now t : Nat) (k : String) (ttl : Nat) (v : RVal) (h : t < now + ttl) :
    rget (rset r now k ttl v) t k = some v := by
  unfold rget rset
  rw [List.find?_cons_of_pos]
  · simp [h]
  · simp

theorem getSessionData_setSessionData (r : RedisSt) (now t : Nat) (sid : String) (v : RVal) (h : t < now + 3600) :
    getSessionData (setSessionData r now sid v) t sid = some v :=
  rget_rset_self r now t ("session:" ++ sid) 3600 v h

/-- A session document owned by user `u` with id `i`, used as a concrete
test fixture. -/
def mkDoc (i u : Nat) : SessionDoc :=
  { id := i, userId := u, title := "t", description := "",
    chatHistory := [],
    componentCode := { jsx := "", css := "", tsx := "", version := 1, lastModified := 0 },
    uiState := defaultUIState, isActive := true, lastAccessed := 0, tags := [],
    metadata := Json.obj [], createdAt := 0, updatedAt := 0 }

/-- The environment in which every awaited call succeeds. -/
def cleanSessEnv : SessEnv :=
  { findFail := none, countFail := none, findOneFail := none, saveFail := none,
    foauFail := none, redisSetFail := none }

/-- C1 (counterexample): the claim says GET `/sessions/:sessionId` consults
the Redis cache and returns cached data on a hit.  At a state where the
cache holds a value for the session, the handler performs no Redis read at
all — its trace is exactly a store read followed by a cache write — and
its response carries the store document, not the cached value. -/
theorem sessions_get_no_cache_read_cex :
    (rget [("session:1", 100, RVal.json (Json.str "stale"))] 0 "session:1"
        = some (RVal.json (Json.str "stale"))) ∧
    (getSessionHandler cleanSessEnv 0 7 1
        { store := [mkDoc 1 7], redis := [("session:1", 100, RVal.json (Json.str "stale"))] }).2.2
      = [Ev.dbFindOne, Ev.redisSet "session:1" 3600] ∧
    (∀ ev ∈ (getSessionHandler cleanSessEnv 0 7 1
        { store := [mkDoc 1 7], redis := [("session:1", 100, RVal.json (Json.str "stale"))] }).2.2,
      isRedisGetEv ev = false) ∧
    (getSessionHandler cleanSessEnv 0 7 1
        { store := [mkDoc 1 7], redis := [("session:1", 100, RVal.json (Json.str "stale"))] }).1
      = ⟨200, RBody.sessionBody none (mkDoc 1 7)⟩ := by
  refine ⟨rfl, rfl, ?_, rfl⟩
  intro ev hev
  fin_cases hev <;> rfl

/-- C1 (amended): GET `/sessions/:sessionId` never reads the Redis cache;
on success it reads the document from the store and writes the session
data to the cache, and each session-data write route (chat, code,
ui-state) updates the store and the cache together, so that after any of
these operations the cached entry equals the session data of the document
just read or written. -/
theorem sessionCache_writeThrough :
    (∀ env now uid sid st, ∀ ev ∈ (getSessionHandler env now uid sid st).2.2, isRedisGetEv ev = false) ∧
    (∀ env now uid sid st d, env.findOneFail = none → env.redisSetFail = none →
      findOneActive st.store uid sid = some d →
      getSessionHandler env now uid sid st =
        (⟨200, RBody.sessionBody none d⟩,
         { st with redis := setSessionData st.redis now (toString sid) (sessPayload d) },
         [Ev.dbFindOne, Ev.redisSet ("session:" ++ toString sid) 3600]) ∧
      getSessionData (setSessionData st.redis now (toString sid) (sessPayload d)) now (toString sid)
        = some (sessPayload d)) ∧
    (∀ env now uid sid b st d, env.findOneFail = none → env.saveFail = none → env.redisSetFail = none →
      (b.role == "") = false → (b.content == "") = false →
      findOneActive st.store uid sid = some d →
      (addChatHandler env now uid sid b st).2.1 =
        { store := saveDoc st.store (addChatMessage d b.role b.content (b.metadata.getD (Json.obj [])) now),
          redis := setSessionData st.redis now (toString sid)
            (sessPayload (addChatMessage d b.role b.content (b.metadata.getD (Json.obj [])) now)) } ∧
      getSessionData ((addChatHandler env now uid sid b st).2.1).redis now (toString sid)
        = some (sessPayload (addChatMessage d b.role b.content (b.metadata.getD (Json.obj [])) now))) ∧
    (∀ env now uid sid b st d, env.findOneFail = none → env.saveFail = none → env.redisSetFail = none →
      findOneActive st.store uid sid = some d →
      (updateCodeHandler env now uid sid b st).2.1 =
        { store := saveDoc st.store (updateComponentCode d b.jsx b.css (b.tsx.getD "") now),
          redis := setSessionData st.redis now (toString sid)
            (sessPayload (updateComponentCode d b.jsx b.css (b.tsx.getD "") now)) } ∧
      getSessionData ((updateCodeHandler env now uid sid b st).2.1).redis now (toString sid)
        = some (sessPayload (updateComponentCode d b.jsx b.css (b.tsx.getD "") now))) ∧
    (∀ env now uid sid p st d, env.findOneFail = none → env.saveFail = none → env.redisSetFail = none →
      findOneActive st.store uid sid = some d →
      (updateUIStateHandler env now uid sid p st).2.1 =
        { store := saveDoc st.store (applyUIState d p now),
          redis := setSessionData st.redis now (toString sid) (sessPayload (applyUIState d p now)) } ∧
      getSessionData ((updateUIStateHandler env now uid sid p st).2.1).redis now (toString sid)
        = some (sessPayload (applyUIState d p now))) := by
  refine ⟨?_, ?_, ?_, ?_, ?_⟩
  · intro env now uid sid st ev hev
    unfold getSessionHandler at hev
    cases h1 : env.findOneFail with
    | some m =>
      rw [h1] at hev
      simp at hev
      rw [hev]
      rfl
    | none =>
      rw [h1] at hev
      cases h2 : findOneActive st.store uid sid with
      | none =>
        rw [h2] at hev
        simp at hev
        rw [hev]
        rfl
      | some d =>
        rw [h2] at hev
        cases h3 : env.redisSetFail with
        | some m =>
          rw [h3] at hev
          simp at hev
          cases hev with
          | inl h => rw [h]; rfl
          | inr h => rw [h]; rfl
        | none =>
          rw [h3] at hev
          simp at hev
          cases hev with
          | inl h => rw [h]; rfl
          | inr h => rw [h]; rfl
  · intro env now uid sid st d h1 h2 h3
    unfold getSessionHandler
    rw [h1, h2, h3]
    exact ⟨rfl, getSessionData_setSessionData _ _ _ _ _ (by omega)⟩
  · intro env now uid sid b st d h1 h2 h3 hr hc h4
    unfold addChatHandler
    rw [hr, hc, h1, h2, h3, h4]
    simp only [Bool.false_or, Bool.or_self, if_false]
    exact ⟨rfl, getSessionData_setSessionData _ _ _ _ _ (by omega)⟩
  · intro env now uid sid b st d h1 h2 h3 h4
    unfold updateCodeHandler
    rw [h1, h2, h3, h4]
    exact ⟨rfl, getSessionData_setSessionData _ _ _ _ _ (by omega)⟩
  · intro env now uid sid p st d h1 h2 h3 h4
    unfold updateUIStateHandler
    rw [h1, h2, h3, h4]
    exact ⟨rfl, getSessionData_setSessionData _ _ _ _ _ (by omega)⟩

/-- C1 (witness): the amended theorem applied at a concrete state. -/
theorem sessionCache_writeThrough_witness :
    getSessionHandler cleanSessEnv 0 7 1 { store := [mkDoc 1 7], redis := [] } =
      (⟨200, RBody.sessionBody none (mkDoc 1 7)⟩,
       { store := [mkDoc 1 7],
         redis := setSessionData [] 0 (toString 1) (sessPayload (mkDoc 1 7)) },
       [Ev.dbFindOne, Ev.redisSet ("session:" ++ toString 1) 3600]) ∧
    getSessionData (setSessionData [] 0 (toString 1) (sessPayload (mkDoc 1 7))) 0 (toString 1)
      = some (sessPayload (mkDoc 1 7)) :=
  (sessionCache_writeThrough.2.1 cleanSessEnv 0 7 1 { store := [mkDoc 1 7], redis := [] }
    (mkDoc 1 7) rfl rfl rfl)

/-- C2: for every text returned by the AI endpoint to POST `/ai/generate`,
the parse block extracts the substring from the first opening curly brace
through the last closing curly brace exactly when such a pair exists (the
`jsMatchBraces_eq_some` characterization restated as the first conjunct);
if that substring parses as JSON the response data is exactly the parsed
object, and when there is no match or parsing throws, the data is the
fallback object with the full text as `jsx`, empty `css` and `tsx`, and
the canned explanation; the handler returns exactly this value on a cache
miss. -/
theorem ai_generate_parse_correct :
    ∀ (tryParse : List Char → Option Json) (text : String),
      (∀ m, jsMatchBraces text.toList = some m ↔
        ∃ pre post, text.toList = pre ++ m ++ post ∧ '\x7b' ∉ pre ∧ m.head? = some '\x7b' ∧
          m.getLast? = some '\x7d' ∧ '\x7d' ∉ post) ∧
      (∀ m j, jsMatchBraces text.toList = some m → tryParse m = some j →
        parseGenerateText tryParse text = j) ∧
      (∀ m, jsMatchBraces text.toList = some m → tryParse m = none →
        parseGenerateText tryParse text = genFallback text) ∧
      (jsMatchBraces text.toList = none → parseGenerateText tryParse text = genFallback text) ∧
      (∀ env now apiKey b st, env.tryParse = tryParse →
        (b.prompt == "") = false → env.getCacheFail = none →
        cacheLookup st.redis now (aiCacheKey b.prompt) = none →
        callGemini env.fetch = Except.ok text → env.setCacheFail = none →
        (generateHandler env now apiKey b st).1 =
          ⟨200, RBody.aiBody true (RVal.json (parseGenerateText tryParse text)) (some false)⟩) := by
  intro tryParse text
  refine ⟨fun m => jsMatchBraces_eq_some, ?_, ?_, ?_, ?_⟩
  · intro m j hm hp
    unfold parseGenerateText
    simp only [hm, hp]
  · intro m hm hp
    unfold parseGenerateText
    simp only [hm, hp]
  · intro hm
    unfold parseGenerateText
    simp only [hm]
  · intro env now apiKey b st htp hprompt hgc hmiss hcall hsc
    unfold generateHandler
    simp only [hprompt, hgc, hmiss, hcall, hsc, htp]
    rfl

/-- C2 (witness): the parse theorem applied at a concrete text whose brace
span parses. -/
theorem ai_generate_parse_correct_witness :
    parseGenerateText (fun m => some (Json.str (String.mk m))) "x\x7ba\x7dy"
      = Json.str "\x7ba\x7d" :=
  (ai_generate_parse_correct (fun m => some (Json.str (String.mk m))) "x\x7ba\x7dy").2.1
    ("\x7ba\x7d".toList) (Json.str "\x7ba\x7d") (by decide) rfl

/-- C4 (counterexample): the claim allows at most one document-store call
per request, but GET `/` issues two (`find` then `countDocuments`) and a
successful POST `/:sessionId/chat` issues two (`findOne` then the `save`
inside `addChatMessage`). -/
theorem sessions_single_store_call_cex :
    (getSessionsHandler cleanSessEnv 0 7 { page := none, limit := none, search := none }
        { store := [], redis := [] }).2.2 = [Ev.dbFind, Ev.dbCount] ∧
    ¬ (storeCalls (getSessionsHandler cleanSessEnv 0 7 { page := none, limit := none, search := none }
        { store := [], redis := [] }).2.2 ≤ 1) ∧
    storeCalls (addChatHandler cleanSessEnv 0 7 1 { role := "user", content := "hi", metadata := none }
        { store := [mkDoc 1 7], redis := [] }).2.2 = 2 := by
  refine ⟨rfl, by decide, rfl⟩

/-- C4 (amended): every sessions-router endpoint performs at most two
document-store calls between validation and the response — exactly one
query or update for the single, create, metadata-update, delete and stats
endpoints, and at most a query plus one save for the list, chat, code and
ui-state endpoints. -/
theorem sessions_store_calls_bounded :
    (∀ env now uid q st, storeCalls (getSessionsHandler env now uid q st).2.2 ≤ 2) ∧
    (∀ env now uid sid st, storeCalls (getSessionHandler env now uid sid st).2.2 ≤ 1) ∧
    (∀ env now uid newId b st, storeCalls (createSessionHandler env now uid newId b st).2.2 ≤ 1) ∧
    (∀ env now uid sid b st, storeCalls (updateSessionHandler env now uid sid b st).2.2 ≤ 1) ∧
    (∀ env now uid sid st, storeCalls (deleteSessionHandler env now uid sid st).2.2 ≤ 1) ∧
    (∀ env now uid sid b st, storeCalls (addChatHandler env now uid sid b st).2.2 ≤ 2) ∧
    (∀ env now uid sid b st, storeCalls (updateCodeHandler env now uid sid b st).2.2 ≤ 2) ∧
    (∀ env now uid sid p st, storeCalls (updateUIStateHandler env now uid sid p st).2.2 ≤ 2) ∧
    (∀ env uid sid st, storeCalls (getStatsHandler env uid sid st).2.2 ≤ 1) := by
  refine ⟨?_, ?_, ?_, ?_, ?_, ?_, ?_, ?_, ?_⟩
  · intro env now uid q st
    unfold getSessionsHandler
    repeat' split
    all_goals simp [storeCalls, List.countP_cons, List.countP_nil, isStoreEv]
  · intro env now uid sid st
    unfold getSessionHandler
    repeat' split
    all_goals simp [storeCalls, List.countP_cons, List.countP_nil, isStoreEv]
  · intro env now uid newId b st
    unfold createSessionHandler
    repeat' split
    all_goals simp [storeCalls, List.countP_cons, List.countP_nil, isStoreEv]
  · intro env now uid sid b st
    unfold updateSessionHandler
    repeat' split
    all_goals simp [storeCalls, List.countP_cons, List.countP_nil, isStoreEv]
  · intro env now uid sid st
    unfold deleteSessionHandler
    repeat' split
    all_goals simp [storeCalls, List.countP_cons, List.countP_nil, isStoreEv]
  · intro env now uid sid b st
    unfold addChatHandler
    repeat' split
    all_goals simp [storeCalls, List.countP_cons, List.countP_nil, isStoreEv]
  · intro env now uid sid b st
    unfold updateCodeHandler
    repeat' split
    all_goals simp [storeCalls, List.countP_cons, List.countP_nil, isStoreEv]
  · intro env now uid sid p st
    unfold updateUIStateHandler
    repeat' split
    all_goals simp [storeCalls, List.countP_cons, List.countP_nil, isStoreEv]
  · intro env uid sid st
    unfold getStatsHandler
    repeat' split
    all_goals simp [storeCalls, List.countP_cons, List.countP_nil, isStoreEv]

/-- An event is a Redis write only with TTL 3600 (TTL-check helper). -/
def redisSetTTL3600 (ev : Ev) : Bool :=
  match ev with
  | Ev.redisSet _ ttl => ttl == 3600
  | _ => true

/-- C6: every Redis write performed by any handler carries a finite expiry:
all `redisSet` events in every trace of the sessions and AI routers use
TTL 3600 (the `setSessionData` default for session mirrors, and the
explicit one-hour TTL for AI generation results), and the generic
`setCache` helper defaults to TTL 300; hence no cache entry is ever
written without an expiration. -/
theorem cache_writes_have_ttl :
    (∀ r now k v, setCache r now k v = setCacheTTL r now k v 300) ∧
    (∀ r now sid v, setSessionData r now sid v = setSessionDataTTL r now sid v 3600) ∧
    (∀ env now uid q st, ((getSessionsHandler env now uid q st).2.2.all redisSetTTL3600) = true) ∧
    (∀ env now uid sid st, ((getSessionHandler env now uid sid st).2.2.all redisSetTTL3600) = true) ∧
    (∀ env now uid newId b st, ((createSessionHandler env now uid newId b st).2.2.all redisSetTTL3600) = true) ∧
    (∀ env now uid sid b st, ((updateSessionHandler env now uid sid b st).2.2.all redisSetTTL3600) = true) ∧
    (∀ env now uid sid st, ((deleteSessionHandler env now uid sid st).2.2.all redisSetTTL3600) = true) ∧
    (∀ env now uid sid b st, ((addChatHandler env now uid sid b st).2.2.all redisSetTTL3600) = true) ∧
    (∀ env now uid sid b st, ((updateCodeHandler env now uid sid b st).2.2.all redisSetTTL3600) = true) ∧
    (∀ env now uid sid p st, ((updateUIStateHandler env now uid sid p st).2.2.all redisSetTTL3600) = true) ∧
    (∀ env uid sid st, ((getStatsHandler env uid sid st).2.2.all redisSetTTL3600) = true) ∧
    (∀ env now apiKey b st, ((generateHandler env now apiKey b st).2.2.all redisSetTTL3600) = true) ∧
    (∀ fetch tryParse apiKey b st, ((refineHandler fetch tryParse apiKey b st).2.2.all redisSetTTL3600) = true) ∧
    (∀ fetch tryParse apiKey b st, ((variationsHandler fetch tryParse apiKey b st).2.2.all redisSetTTL3600) = true) ∧
    (∀ fetch tryParse apiKey b st, ((analyzeHandler fetch tryParse apiKey b st).2.2.all redisSetTTL3600) = true) := by
  refine ⟨fun _ _ _ _ => rfl, fun _ _ _ _ => rfl, ?_, ?_, ?_, ?_, ?_, ?_, ?_, ?_, ?_, ?_, ?_, ?_, ?_⟩
  · intro env now uid q st
    unfold getSessionsHandler
    repeat' split
    all_goals simp [List.all_cons, redisSetTTL3600]
  · intro env now uid sid st
    unfold getSessionHandler
    repeat' split
    all_goals simp [List.all_cons, redisSetTTL3600]
  · intro env now uid newId b st
    unfold createSessionHandler
    repeat' split
    all_goals simp [List.all_cons, redisSetTTL3600]
  · intro env now uid sid b st
    unfold updateSessionHandler
    repeat' split
    all_goals simp [List.all_cons, redisSetTTL3600]
  · intro env now uid sid st
    unfold deleteSessionHandler
    repeat' split
    all_goals simp [List.all_cons, redisSetTTL3600]
  · intro env now uid sid b st
    unfold addChatHandler
    repeat' split
    all_goals simp [List.all_cons, redisSetTTL3600]
  · intro env now uid sid b st
    unfold updateCodeHandler
    repeat' split
    all_goals simp [List.all_cons, redisSetTTL3600]
  · intro env now uid sid p st
    unfold updateUIStateHandler
    repeat' split
    all_goals simp [List.all_cons, redisSetTTL3600]
  · intro env uid sid st
    unfold getStatsHandler
    repeat' split
    all_goals simp [List.all_cons, redisSetTTL3600]
  · intro env now apiKey b st
    unfold generateHandler
    repeat' split
    all_goals
      cases hcl : cacheLookup st.redis now (aiCacheKey b.prompt) <;>
        simp [hcl, List.all_cons, redisSetTTL3600]
  · intro fetch tryParse apiKey b st
    unfold refineHandler
    repeat' split
    all_goals simp [List.all_cons, redisSetTTL3600]
  · intro fetch tryParse apiKey b st
    unfold variationsHandler
    repeat' split
    all_goals simp [List.all_cons, redisSetTTL3600]
  · intro fetch tryParse apiKey b st
    unfold analyzeHandler
    repeat' split
    all_goals simp [List.all_cons, redisSetTTL3600]

/-- C7: every route of the sessions router and of the AI router is
registered with the `auth` middleware, and (auth modelled from the spec)
a request without a valid authenticated user is rejected with no handler
body executed: the state is unchanged and the trace is empty, so no
document-store or external-API call happens. -/
theorem all_routes_require_auth :
    (∀ r ∈ sessionsRoutes, r.usesAuth = true) ∧
    (∀ r ∈ aiRoutes, r.usesAuth = true) ∧
    (∀ env now q st, getSessionsRoute env now none q st = (⟨401, RBody.err "Authentication required"⟩, st, [])) ∧
    (∀ env now sid st, getSessionRoute env now none sid st = (⟨401, RBody.err "Authentication required"⟩, st, [])) ∧
    (∀ env now newId b st, createSessionRoute env now none newId b st = (⟨401, RBody.err "Authentication required"⟩, st, [])) ∧
    (∀ env now sid b st, updateSessionRoute env now none sid b st = (⟨401, RBody.err "Authentication required"⟩, st, [])) ∧
    (∀ env now sid st, deleteSessionRoute env now none sid st = (⟨401, RBody.err "Authentication required"⟩, st, [])) ∧
    (∀ env now sid b st, addChatRoute env now none sid b st = (⟨401, RBody.err "Authentication required"⟩, st, [])) ∧
    (∀ env now sid b st, updateCodeRoute env now none sid b st = (⟨401, RBody.err "Authentication required"⟩, st, [])) ∧
    (∀ env now sid p st, updateUIStateRoute env now none sid p st = (⟨401, RBody.err "Authentication required"⟩, st, [])) ∧
    (∀ env sid st, getStatsRoute env none sid st = (⟨401, RBody.err "Authentication required"⟩, st, [])) ∧
    (∀ env now apiKey b st, generateRoute env now none apiKey b st = (⟨401, RBody.err "Authentication required"⟩, st, [])) ∧
    (∀ fetch tryParse apiKey b st, refineRoute fetch tryParse none apiKey b st = (⟨401, RBody.err "Authentication required"⟩, st, [])) ∧
    (∀ fetch tryParse apiKey b st, variationsRoute fetch tryParse none apiKey b st = (⟨401, RBody.err "Authentication required"⟩, st, [])) ∧
    (∀ fetch tryParse apiKey b st, analyzeRoute fetch tryParse none apiKey b st = (⟨401, RBody.err "Authentication required"⟩, st, [])) := by
  refine ⟨?_, ?_, fun _ _ _ _ => rfl, fun _ _ _ _ => rfl, fun _ _ _ _ _ => rfl,
    fun _ _ _ _ _ => rfl, fun _ _ _ _ => rfl, fun _ _ _ _ _ => rfl, fun _ _ _ _ _ => rfl,
    fun _ _ _ _ _ => rfl, fun _ _ _ => rfl, fun _ _ _ _ _ => rfl, fun _ _ _ _ _ => rfl,
    fun _ _ _ _ _ => rfl, fun _ _ _ _ _ => rfl⟩
  · intro r hr
    fin_cases hr <;> rfl
  · intro r hr
    fin_cases hr <;> rfl

/-- C7 (witness): the auth theorem applied to a concrete route entry and a
concrete unauthenticated request. -/
theorem all_routes_require_auth_witness :
    ({ method := "GET", path := "/", usesAuth := true } : Route).usesAuth = true ∧
    getSessionsRoute cleanSessEnv 0 none { page := none, limit := none, search := none }
        { store := [], redis := [] } =
      (⟨401, RBody.err "Authentication required"⟩, { store := [], redis := [] }, []) :=
  ⟨all_routes_require_auth.1 { method := "GET", path := "/", usesAuth := true }
      (by simp [sessionsRoutes]),
   all_routes_require_auth.2.2.1 cleanSessEnv 0
     { page := none, limit := none, search := none } { store := [], redis := [] }⟩

theorem findOneActive_none_of_unowned {store : List SessionDoc} {sid A B : Nat} (hne : A ≠ B)
    (hown : ∀ d ∈ store, d.id = sid → d.userId = B) : findOneActive store A sid = none := by
  apply List.find?_eq_none.mpr
  intro d hd hmatch
  simp only [activeMatch, Bool.and_eq_true, beq_iff_eq] at hmatch
  exact hne (hmatch.1.2 ▸ (hown d hd hmatch.1.1).symm).symm

theorem findOneActive_none_of_inactive {store : List SessionDoc} {sid : Nat}
    (h : ∀ d ∈ store, d.id = sid → d.isActive = false) (uid : Nat) :
    findOneActive store uid sid = none := by
  apply List.find?_eq_none.mpr
  intro d hd hmatch
  simp only [activeMatch, Bool.and_eq_true, beq_iff_eq] at hmatch
  rw [h d hd hmatch.1.1] at hmatch
  exact Bool.false_ne_true hmatch.2

theorem foauActive_no_match {uid sid : Nat} {f : SessionDoc → SessionDoc} :
    ∀ {store : List SessionDoc}, (∀ d ∈ store, ¬ (activeMatch uid sid d = true)) →
      foauActive uid sid f store = (none, store) := by
  intro store
  induction store with
  | nil => intro _; rfl
  | cons d rest ih =>
    intro h
    simp only [foauActive]
    rw [if_neg (h d (List.mem_cons_self d rest))]
    rw [ih (fun e he => h e (List.mem_cons_of_mem d he))]

theorem activeMatch_false_of_unowned {sid A B : Nat} {d : SessionDoc} (hne : A ≠ B)
    (hown : d.id = sid → d.userId = B) : ¬ (activeMatch A sid d = true) := by
  intro hmatch
  simp only [activeMatch, Bool.and_eq_true, beq_iff_eq] at hmatch
  exact hne (hmatch.1.2 ▸ (hown hmatch.1.1).symm).symm

theorem activeMatch_false_of_inactive {sid uid : Nat} {d : SessionDoc}
    (h : d.id = sid → d.isActive = false) : ¬ (activeMatch uid sid d = true) := by
  intro hmatch
  simp only [activeMatch, Bool.and_eq_true, beq_iff_eq] at hmatch
  rw [h hmatch.1.1] at hmatch
  exact Bool.false_ne_true hmatch.2

theorem foauActive_decomp {uid sid : Nat} {f : SessionDoc → SessionDoc} {d : SessionDoc}
    (hd : activeMatch uid sid d = true) :
    ∀ {pre post : List SessionDoc}, (∀ e ∈ pre, ¬ (activeMatch uid sid e = true)) →
      foauActive uid sid f (pre ++ d :: post) = (some (f d), pre ++ f d :: post) := by
  intro pre
  induction pre with
  | nil =>
    intro post _
    simp only [List.nil_append, foauActive]
    rw [if_pos hd]
  | cons e rest ih =>
    intro post hpre
    simp only [List.cons_append, foauActive]
    rw [if_neg (hpre e (List.mem_cons_self e rest))]
    simp only [List.append_eq]
    rw [ih (fun x hx => hpre x (List.mem_cons_of_mem e hx))]

theorem insertDescLA_mem {x y : SessionDoc} : ∀ {l : List SessionDoc}, x ∈ insertDescLA y l → x = y ∨ x ∈ l := by
  intro l
  induction l with
  | nil =>
    intro h
    simp [insertDescLA] at h
    exact Or.inl h
  | cons z rest ih =>
    intro h
    simp only [insertDescLA] at h
    split at h
    · rcases List.mem_cons.mp h with h1 | h2
      · exact Or.inl h1
      · exact Or.inr h2
    · rcases List.mem_cons.mp h with h1 | h2
      · exact Or.inr (List.mem_cons.mpr (Or.inl h1))
      · rcases ih h2 with h3 | h4
        · exact Or.inl h3
        · exact Or.inr (List.mem_cons.mpr (Or.inr h4))

theorem sortDescLA_mem {x : SessionDoc} : ∀ {l : List SessionDoc}, x ∈ sortDescLA l → x ∈ l := by
  intro l
  induction l with
  | nil => intro h; simp [sortDescLA] at h
  | cons y rest ih =>
    intro h
    simp only [sortDescLA] at h
    rcases insertDescLA_mem h with h1 | h2
    · exact List.mem_cons.mpr (Or.inl h1)
    · exact List.mem_cons.mpr (Or.inr (ih h2))

/-- Sessions carried by a list response body. -/
def listedSessions : RBody → List SessionDoc
  | RBody.sessionsList sessions _ => sessions
  | _ => []

/-- C8: every document-store query of the sessions router filters on the
authenticated user's id, so for distinct users A and B and a session owned
by B, every `:sessionId` operation by A answers 404 `Session not found`,
no request by A ever changes the stored session (under any environment),
and the list endpoint only returns sessions owned by A. -/
theorem user_isolation :
    ∀ (A B sid : Nat), A ≠ B →
    ∀ (st : St), (∀ d ∈ st.store, d.id = sid → d.userId = B) →
      (∀ now, getSessionHandler cleanSessEnv now A sid st =
        (⟨404, RBody.err "Session not found"⟩, st, [Ev.dbFindOne])) ∧
      (∀ now b, updateSessionHandler cleanSessEnv now A sid b st =
        (⟨404, RBody.err "Session not found"⟩, st, [Ev.dbFindOneAndUpdate])) ∧
      (∀ now, deleteSessionHandler cleanSessEnv now A sid st =
        (⟨404, RBody.err "Session not found"⟩, st, [Ev.dbFindOneAndUpdate])) ∧
      (∀ now b, (b.role == "") = false → (b.content == "") = false →
        addChatHandler cleanSessEnv now A sid b st =
          (⟨404, RBody.err "Session not found"⟩, st, [Ev.dbFindOne])) ∧
      (∀ now b, updateCodeHandler cleanSessEnv now A sid b st =
        (⟨404, RBody.err "Session not found"⟩, st, [Ev.dbFindOne])) ∧
      (∀ now p, updateUIStateHandler cleanSessEnv now A sid p st =
        (⟨404, RBody.err "Session not found"⟩, st, [Ev.dbFindOne])) ∧
      (getStatsHandler cleanSessEnv A sid st =
        (⟨404, RBody.err "Session not found"⟩, st, [Ev.dbFindOne])) ∧
      (∀ env now, (getSessionHandler env now A sid st).2.1 = st) ∧
      (∀ env now b, (updateSessionHandler env now A sid b st).2.1 = st) ∧
      (∀ env now, (deleteSessionHandler env now A sid st).2.1 = st) ∧
      (∀ env now b, (addChatHandler env now A sid b st).2.1 = st) ∧
      (∀ env now b, (updateCodeHandler env now A sid b st).2.1 = st) ∧
      (∀ env now p, (updateUIStateHandler env now A sid p st).2.1 = st) ∧
      (∀ env, (getStatsHandler env A sid st).2.1 = st) ∧
      (∀ env now q, ∀ d ∈ listedSessions (getSessionsHandler env now A q st).1.body, d.userId = A) := by
  intro A B sid hne st hown
  have hfoa : findOneActive st.store A sid = none := findOneActive_none_of_unowned hne hown
  have hfoau : ∀ f, foauActive A sid f st.store = (none, st.store) :=
    fun f => foauActive_no_match (fun d hd => activeMatch_false_of_unowned hne (hown d hd))
  refine ⟨?_, ?_, ?_, ?_, ?_, ?_, ?_, ?_, ?_, ?_, ?_, ?_, ?_, ?_, ?_⟩
  · intro now
    simp [getSessionHandler, cleanSessEnv, hfoa]
  · intro now b
    simp [updateSessionHandler, cleanSessEnv, hfoau (applyMeta b now)]
  · intro now
    simp [deleteSessionHandler, cleanSessEnv, hfoau (softDelete now)]
  · intro now b hr hc
    simp [addChatHandler, cleanSessEnv, hr, hc, hfoa]
  · intro now b
    simp [updateCodeHandler, cleanSessEnv, hfoa]
  · intro now p
    simp [updateUIStateHandler, cleanSessEnv, hfoa]
  · simp [getStatsHandler, cleanSessEnv, hfoa]
  · intro env now
    unfold getSessionHandler
    repeat' split
    all_goals simp_all [hfoa]
  · intro env now b
    unfold updateSessionHandler
    repeat' split
    all_goals simp_all [hfoau]
  · intro env now
    unfold deleteSessionHandler
    repeat' split
    all_goals simp_all [hfoau (softDelete now)]
  · intro env now b
    unfold addChatHandler
    repeat' split
    all_goals simp_all [hfoa]
  · intro env now b
    unfold updateCodeHandler
    repeat' split
    all_goals simp_all [hfoa]
  · intro env now p
    unfold updateUIStateHandler
    repeat' split
    all_goals simp_all [hfoa]
  · intro env
    unfold getStatsHandler
    repeat' split
    all_goals simp_all [hfoa]
  · intro env now q d hd
    unfold getSessionsHandler at hd
    split at hd
    · simp [listedSessions] at hd
    · split at hd
      · simp [listedSessions] at hd
      · simp only [listedSessions] at hd
        obtain ⟨e, he, hde⟩ := List.mem_map.mp hd
        have he2 := List.take_subset _ _ he
        have he3 := List.drop_subset _ _ he2
        have he4 := sortDescLA_mem he3
        have he5 := List.mem_filter.mp he4
        have huid : e.userId = A := by
          have := he5.2
          simp only [listQueryMatch, Bool.and_eq_true, beq_iff_eq] at this
          exact this.1.1
        rw [← hde]
        exact huid

/-- C8 (witness): the isolation theorem applied at a concrete state where
user 7 owns session 1 and user 3 requests it. -/
theorem user_isolation_witness :
    getSessionHandler cleanSessEnv 0 3 1 { store := [mkDoc 1 7], redis := [] } =
      (⟨404, RBody.err "Session not found"⟩, { store := [mkDoc 1 7], redis := [] }, [Ev.dbFindOne]) :=
  (user_isolation 3 7 1 (by decide) { store := [mkDoc 1 7], redis := [] }
    (by intro d hd _; fin_cases hd; rfl)).1 0

/-- C9 (counterexample): the claim says DELETE leaves every stored field
except `isActive` unchanged, but the schema's `timestamps: true` option
makes `findOneAndUpdate` refresh `updatedAt` as well: deleting at instant
5 a session whose `updatedAt` was 0 stores `updatedAt = 5`. -/
theorem soft_delete_updatedAt_cex :
    ((deleteSessionHandler cleanSessEnv 5 7 1 { store := [mkDoc 1 7], redis := [] }).2.1.store.map
        (fun d => d.updatedAt)) = [5] ∧
    (mkDoc 1 7).updatedAt = 0 ∧
    ((deleteSessionHandler cleanSessEnv 5 7 1 { store := [mkDoc 1 7], redis := [] }).2.1.store.map
        (fun d => d.isActive)) = [false] ∧
    ¬ ((deleteSessionHandler cleanSessEnv 5 7 1 { store := [mkDoc 1 7], redis := [] }).2.1.store
        = [{ mkDoc 1 7 with isActive := false }]) := by
  refine ⟨rfl, rfl, rfl, ?_⟩
  intro h
  have h2 : ([({ mkDoc 1 7 with isActive := false } : SessionDoc)] : List SessionDoc).map
      (fun d => d.updatedAt) = [5] := by
    rw [← h]
    rfl
  simp [mkDoc] at h2

/-- C9 (amended): DELETE `/sessions/:sessionId` soft-deletes: it sets
`isActive` to false and refreshes the timestamps-managed `updatedAt`
field, leaves every other stored field of the document unchanged, writes
`null` over the session's Redis mirror, and afterwards every
sessions-router operation naming that sessionId (GET, PUT, chat, code,
ui-state, stats, DELETE) returns 404 `Session not found` and leaves the
state unchanged, because all of their queries filter on `isActive: true`. -/
theorem soft_delete_total :
    ∀ (uid sid now : Nat) (pre post : List SessionDoc) (d : SessionDoc) (redis : RedisSt),
      d.id = sid → d.userId = uid → d.isActive = true →
      (∀ e ∈ pre, e.id ≠ sid) → (∀ e ∈ post, e.id ≠ sid) →
      (deleteSessionHandler cleanSessEnv now uid sid { store := pre ++ d :: post, redis := redis } =
        (⟨200, RBody.deletedBody "Session deleted successfully"⟩,
         { store := pre ++ { d with isActive := false, updatedAt := now } :: post,
           redis := setSessionData redis now (toString sid) RVal.rnull },
         [Ev.dbFindOneAndUpdate, Ev.redisSet ("session:" ++ toString sid) 3600])) ∧
      (∀ now2 uid2,
        getSessionHandler cleanSessEnv now2 uid2 sid
            { store := pre ++ { d with isActive := false, updatedAt := now } :: post,
              redis := setSessionData redis now (toString sid) RVal.rnull } =
          (⟨404, RBody.err "Session not found"⟩,
           { store := pre ++ { d with isActive := false, updatedAt := now } :: post,
             redis := setSessionData redis now (toString sid) RVal.rnull }, [Ev.dbFindOne]) ∧
        (∀ b, updateSessionHandler cleanSessEnv now2 uid2 sid b
            { store := pre ++ { d with isActive := false, updatedAt := now } :: post,
              redis := setSessionData redis now (toString sid) RVal.rnull } =
          (⟨404, RBody.err "Session not found"⟩,
           { store := pre ++ { d with isActive := false, updatedAt := now } :: post,
             redis := setSessionData redis now (toString sid) RVal.rnull }, [Ev.dbFindOneAndUpdate])) ∧
        deleteSessionHandler cleanSessEnv now2 uid2 sid
            { store := pre ++ { d with isActive := false, updatedAt := now } :: post,
              redis := setSessionData redis now (toString sid) RVal.rnull } =
          (⟨404, RBody.err "Session not found"⟩,
           { store := pre ++ { d with isActive := false, updatedAt := now } :: post,
             redis := setSessionData redis now (toString sid) RVal.rnull }, [Ev.dbFindOneAndUpdate]) ∧
        (∀ b, (b.role == "") = false → (b.content == "") = false →
          addChatHandler cleanSessEnv now2 uid2 sid b
              { store := pre ++ { d with isActive := false, updatedAt := now } :: post,
                redis := setSessionData redis now (toString sid) RVal.rnull } =
            (⟨404, RBody.err "Session not found"⟩,
             { store := pre ++ { d with isActive := false, updatedAt := now } :: post,
               redis := setSessionData redis now (toString sid) RVal.rnull }, [Ev.dbFindOne])) ∧
        (∀ b, updateCodeHandler cleanSessEnv now2 uid2 sid b
            { store := pre ++ { d with isActive := false, updatedAt := now } :: post,
              redis := setSessionData redis now (toString sid) RVal.rnull } =
          (⟨404, RBody.err "Session not found"⟩,
           { store := pre ++ { d with isActive := false, updatedAt := now } :: post,
             redis := setSessionData redis now (toString sid) RVal.rnull }, [Ev.dbFindOne])) ∧
        (∀ p, updateUIStateHandler cleanSessEnv now2 uid2 sid p
            { store := pre ++ { d with isActive := false, updatedAt := now } :: post,
              redis := setSessionData redis now (toString sid) RVal.rnull } =
          (⟨404, RBody.err "Session not found"⟩,
           { store := pre ++ { d with isActive := false, updatedAt := now } :: post,
             redis := setSessionData redis now (toString sid) RVal.rnull }, [Ev.dbFindOne])) ∧
        getStatsHandler cleanSessEnv uid2 sid
            { store := pre ++ { d with isActive := false, updatedAt := now } :: post,
              redis := setSessionData redis now (toString sid) RVal.rnull } =
          (⟨404, RBody.err "Session not found"⟩,
           { store := pre ++ { d with isActive := false, updatedAt := now } :: post,
             redis := setSessionData redis now (toString sid) RVal.rnull }, [Ev.dbFindOne])) := by
  intro uid sid now pre post d redis hid huid hact hpre hpost
  have hd : activeMatch uid sid d = true := by simp [activeMatch, hid, huid, hact]
  have hpre' : ∀ e ∈ pre, ¬ (activeMatch uid sid e = true) := by
    intro e he hm
    simp only [activeMatch, Bool.and_eq_true, beq_iff_eq] at hm
    exact hpre e he hm.1.1
  have hNoActive : ∀ e ∈ pre ++ { d with isActive := false, updatedAt := now } :: post,
      e.id = sid → e.isActive = false := by
    intro e he heid
    rcases List.mem_append.mp he with h1 | h2
    · exact absurd heid (hpre e h1)
    · rcases List.mem_cons.mp h2 with h3 | h4
      · rw [h3]
      · exact absurd heid (hpost e h4)
  have hfoa2 : ∀ uid2, findOneActive (pre ++ { d with isActive := false, updatedAt := now } :: post) uid2 sid = none :=
    fun uid2 => findOneActive_none_of_inactive hNoActive uid2
  have hfoau2 : ∀ uid2 f, foauActive uid2 sid f (pre ++ { d with isActive := false, updatedAt := now } :: post) =
      (none, pre ++ { d with isActive := false, updatedAt := now } :: post) :=
    fun uid2 f => foauActive_no_match (fun e he => activeMatch_false_of_inactive (hNoActive e he))
  constructor
  · have hdecomp := @foauActive_decomp uid sid (softDelete now) d hd pre post hpre'
    simp [deleteSessionHandler, cleanSessEnv, hdecomp, softDelete]
  · intro now2 uid2
    refine ⟨?_, ?_, ?_, ?_, ?_, ?_, ?_⟩
    · simp [getSessionHandler, cleanSessEnv, hfoa2 uid2]
    · intro b
      simp [updateSessionHandler, cleanSessEnv, hfoau2 uid2 (applyMeta b now2)]
    · simp [deleteSessionHandler, cleanSessEnv, hfoau2 uid2 (softDelete now2)]
    · intro b hr hc
      simp [addChatHandler, cleanSessEnv, hr, hc, hfoa2 uid2]
    · intro b
      simp [updateCodeHandler, cleanSessEnv, hfoa2 uid2]
    · intro p
      simp [updateUIStateHandler, cleanSessEnv, hfoa2 uid2]
    · simp [getStatsHandler, cleanSessEnv, hfoa2 uid2]

/-- C9 (witness): the soft-delete theorem applied at a concrete one-session
store. -/
theorem soft_delete_total_witness :
    deleteSessionHandler cleanSessEnv 5 7 1 { store := [mkDoc 1 7], redis := [] } =
      (⟨200, RBody.deletedBody "Session deleted successfully"⟩,
       { store := [{ mkDoc 1 7 with isActive := false, updatedAt := 5 }],
         redis := setSessionData [] 5 (toString 1) RVal.rnull },
       [Ev.dbFindOneAndUpdate, Ev.redisSet ("session:" ++ toString 1) 3600]) :=
  (soft_delete_total 7 1 5 [] [] (mkDoc 1 7) [] rfl rfl rfl
    (by intro e he; simp at he) (by intro e he; simp at he)).1

/-- C3: the only failure recovery in the sessions and AI routers is
catch-and-return-HTTP-500: for every throw point reached after
request-body validation (and, where applicable, the not-found check), the
handler responds 500 with a body carrying an `error` field, the trace
shows each call attempted exactly once (no retry), and updates already
applied before the throw stay applied (no rollback, e.g. a chat save is
kept when the subsequent Redis write throws). -/
theorem handlers_catch_return_500 :
    (∀ m, hasErrorField (RBody.err m) = true) ∧
    (∀ m dtl, hasErrorField (RBody.errDetails m dtl) = true) ∧
    (∀ env now uid q st m, env.findFail = some m →
      getSessionsHandler env now uid q st = (⟨500, RBody.err "Failed to fetch sessions"⟩, st, [Ev.dbFind])) ∧
    (∀ env now uid q st m, env.findFail = none → env.countFail = some m →
      getSessionsHandler env now uid q st = (⟨500, RBody.err "Failed to fetch sessions"⟩, st, [Ev.dbFind, Ev.dbCount])) ∧
    (∀ env now uid sid st m, env.findOneFail = some m →
      getSessionHandler env now uid sid st = (⟨500, RBody.err "Failed to fetch session"⟩, st, [Ev.dbFindOne])) ∧
    (∀ env now uid sid st d m, env.findOneFail = none → findOneActive st.store uid sid = some d →
      env.redisSetFail = some m →
      getSessionHandler env now uid sid st = (⟨500, RBody.err "Failed to fetch session"⟩, st,
        [Ev.dbFindOne, Ev.redisSet ("session:" ++ toString sid) 3600])) ∧
    (∀ env now uid newId b st m, (b.title == "") = false → env.saveFail = some m →
      createSessionHandler env now uid newId b st = (⟨500, RBody.err "Failed to create session"⟩, st, [Ev.dbSave])) ∧
    (∀ env now uid sid b st m, env.foauFail = some m →
      updateSessionHandler env now uid sid b st = (⟨500, RBody.err "Failed to update session"⟩, st, [Ev.dbFindOneAndUpdate])) ∧
    (∀ env now uid sid st m, env.foauFail = some m →
      deleteSessionHandler env now uid sid st = (⟨500, RBody.err "Failed to delete session"⟩, st, [Ev.dbFindOneAndUpdate])) ∧
    (∀ env now uid sid st d store2 m, env.foauFail = none →
      foauActive uid sid (softDelete now) st.store = (some d, store2) → env.redisSetFail = some m →
      deleteSessionHandler env now uid sid st = (⟨500, RBody.err "Failed to delete session"⟩,
        { st with store := store2 },
        [Ev.dbFindOneAndUpdate, Ev.redisSet ("session:" ++ toString sid) 3600])) ∧
    (∀ env now uid sid b st m, (b.role == "") = false → (b.content == "") = false →
      env.findOneFail = some m →
      addChatHandler env now uid sid b st = (⟨500, RBody.err "Failed to add chat message"⟩, st, [Ev.dbFindOne])) ∧
    (∀ env now uid sid b st d m, (b.role == "") = false → (b.content == "") = false →
      env.findOneFail = none → findOneActive st.store uid sid = some d → env.saveFail = some m →
      addChatHandler env now uid sid b st = (⟨500, RBody.err "Failed to add chat message"⟩, st, [Ev.dbFindOne, Ev.dbSave])) ∧
    (∀ env now uid sid b st d m, (b.role == "") = false → (b.content == "") = false →
      env.findOneFail = none → findOneActive st.store uid sid = some d → env.saveFail = none →
      env.redisSetFail = some m →
      addChatHandler env now uid sid b st = (⟨500, RBody.err "Failed to add chat message"⟩,
        { store := saveDoc st.store (addChatMessage d b.role b.content (b.metadata.getD (Json.obj [])) now),
          redis := st.redis },
        [Ev.dbFindOne, Ev.dbSave, Ev.redisSet ("session:" ++ toString sid) 3600])) ∧
    (∀ env now uid sid b st m, env.findOneFail = some m →
      updateCodeHandler env now uid sid b st = (⟨500, RBody.err "Failed to update component code"⟩, st, [Ev.dbFindOne])) ∧
    (∀ env now uid sid b st d m, env.findOneFail = none → findOneActive st.store uid sid = some d →
      env.saveFail = some m →
      updateCodeHandler env now uid sid b st = (⟨500, RBody.err "Failed to update component code"⟩, st, [Ev.dbFindOne, Ev.dbSave])) ∧
    (∀ env now uid sid b st d m, env.findOneFail = none → findOneActive st.store uid sid = some d →
      env.saveFail = none → env.redisSetFail = some m →
      updateCodeHandler env now uid sid b st = (⟨500, RBody.err "Failed to update component code"⟩,
        { store := saveDoc st.store (updateComponentCode d b.jsx b.css (b.tsx.getD "") now),
          redis := st.redis },
        [Ev.dbFindOne, Ev.dbSave, Ev.redisSet ("session:" ++ toString sid) 3600])) ∧
    (∀ env now uid sid p st m, env.findOneFail = some m →
      updateUIStateHandler env now uid sid p st = (⟨500, RBody.err "Failed to update UI state"⟩, st, [Ev.dbFindOne])) ∧
    (∀ env now uid sid p st d m, env.findOneFail = none → findOneActive st.store uid sid = some d →
      env.saveFail = some m →
      updateUIStateHandler env now uid sid p st = (⟨500, RBody.err "Failed to update UI state"⟩, st, [Ev.dbFindOne, Ev.dbSave])) ∧
    (∀ env now uid sid p st d m, env.findOneFail = none → findOneActive st.store uid sid = some d →
      env.saveFail = none → env.redisSetFail = some m →
      updateUIStateHandler env now uid sid p st = (⟨500, RBody.err "Failed to update UI state"⟩,
        { store := saveDoc st.store (applyUIState d p now), redis := st.redis },
        [Ev.dbFindOne, Ev.dbSave, Ev.redisSet ("session:" ++ toString sid) 3600])) ∧
    (∀ env uid sid st m, env.findOneFail = some m →
      getStatsHandler env uid sid st = (⟨500, RBody.err "Failed to get session statistics"⟩, st, [Ev.dbFindOne])) ∧
    (∀ env now apiKey b st m, (b.prompt == "") = false → env.getCacheFail = some m →
      generateHandler env now apiKey b st = (⟨500, RBody.errDetails "Failed to generate component" m⟩, st,
        [Ev.redisGet (aiCacheKey b.prompt)])) ∧
    (∀ env now apiKey b st m, (b.prompt == "") = false → env.getCacheFail = none →
      cacheLookup st.redis now (aiCacheKey b.prompt) = none → callGemini env.fetch = Except.error m →
      generateHandler env now apiKey b st = (⟨500, RBody.errDetails "Failed to generate component" m⟩, st,
        [Ev.redisGet (aiCacheKey b.prompt),
         Ev.extFetch (geminiUrl apiKey) (generateComponentPrompt b.prompt b.existingCode b.chatHistory)])) ∧
    (∀ env now apiKey b st text m, (b.prompt == "") = false → env.getCacheFail = none →
      cacheLookup st.redis now (aiCacheKey b.prompt) = none → callGemini env.fetch = Except.ok text →
      env.setCacheFail = some m →
      generateHandler env now apiKey b st = (⟨500, RBody.errDetails "Failed to generate component" m⟩, st,
        [Ev.redisGet (aiCacheKey b.prompt),
         Ev.extFetch (geminiUrl apiKey) (generateComponentPrompt b.prompt b.existingCode b.chatHistory),
         Ev.redisSet (aiCacheKey b.prompt) 3600])) ∧
    (∀ fetch tryParse apiKey b st cur m, (b.prompt == "") = false → b.currentCode = some cur →
      callGemini fetch = Except.error m →
      refineHandler fetch tryParse apiKey b st = (⟨500, RBody.errDetails "Failed to refine component" m⟩, st,
        [Ev.extFetch (geminiUrl apiKey) (refinePrompt cur b.prompt)])) ∧
    (∀ fetch tryParse apiKey b st base m, b.baseCode = some base → callGemini fetch = Except.error m →
      variationsHandler fetch tryParse apiKey b st = (⟨500, RBody.errDetails "Failed to generate variations" m⟩, st,
        [Ev.extFetch (geminiUrl apiKey) (variationsPrompt base (b.count.getD 3))])) ∧
    (∀ fetch tryParse apiKey b st code m, b.code = some code → callGemini fetch = Except.error m →
      analyzeHandler fetch tryParse apiKey b st = (⟨500, RBody.errDetails "Failed to analyze component" m⟩, st,
        [Ev.extFetch (geminiUrl apiKey) (analyzePrompt code)])) := by
  refine ⟨fun _ => rfl, fun _ _ => rfl, ?_, ?_, ?_, ?_, ?_, ?_, ?_, ?_, ?_, ?_, ?_, ?_, ?_, ?_, ?_, ?_, ?_, ?_, ?_, ?_, ?_, ?_, ?_, ?_⟩
  · intro env now uid q st m h1
    unfold getSessionsHandler
    simp only [h1]
  · intro env now uid q st m h1 h2
    unfold getSessionsHandler
    simp only [h1, h2]
  · intro env now uid sid st m h1
    unfold getSessionHandler
    simp only [h1]
  · intro env now uid sid st d m h1 h2 h3
    unfold getSessionHandler
    simp only [h1, h2, h3]
  · intro env now uid newId b st m h1 h2
    unfold createSessionHandler
    simp only [h1, h2, Bool.false_eq_true, if_false]
  · intro env now uid sid b st m h1
    unfold updateSessionHandler
    simp only [h1]
  · intro env now uid sid st m h1
    unfold deleteSessionHandler
    simp only [h1]
  · intro env now uid sid st d store2 m h1 h2 h3
    unfold deleteSessionHandler
    simp only [h1, h2, h3]
  · intro env now uid sid b st m h1 h2 h3
    unfold addChatHandler
    simp only [h1, h2, h3, Bool.false_or, Bool.or_self, Bool.false_eq_true, if_false]
  · intro env now uid sid b st d m h1 h2 h3 h4 h5
    unfold addChatHandler
    simp only [h1, h2, h3, h4, h5, Bool.false_or, Bool.or_self, Bool.false_eq_true, if_false]
  · intro env now uid sid b st d m h1 h2 h3 h4 h5 h6
    unfold addChatHandler
    simp only [h1, h2, h3, h4, h5, h6, Bool.false_or, Bool.or_self, Bool.false_eq_true, if_false]
  · intro env now uid sid b st m h1
    unfold updateCodeHandler
    simp only [h1]
  · intro env now uid sid b st d m h1 h2 h3
    unfold updateCodeHandler
    simp only [h1, h2, h3]
  · intro env now uid sid b st d m h1 h2 h3 h4
    unfold updateCodeHandler
    simp only [h1, h2, h3, h4]
  · intro env now uid sid p st m h1
    unfold updateUIStateHandler
    simp only [h1]
  · intro env now uid sid p st d m h1 h2 h3
    unfold updateUIStateHandler
    simp only [h1, h2, h3]
  · intro env now uid sid p st d m h1 h2 h3 h4
    unfold updateUIStateHandler
    simp only [h1, h2, h3, h4]
  · intro env uid sid st m h1
    unfold getStatsHandler
    simp only [h1]
  · intro env now apiKey b st m h1 h2
    unfold generateHandler
    simp only [h1, h2, Bool.false_eq_true, if_false]
  · intro env now apiKey b st m h1 h2 h3 h4
    unfold generateHandler
    simp only [h1, h2, h3, h4, Bool.false_eq_true, if_false]
  · intro env now apiKey b st text m h1 h2 h3 h4 h5
    unfold generateHandler
    simp only [h1, h2, h3, h4, h5, Bool.false_eq_true, if_false]
  · intro fetch tryParse apiKey b st cur m h1 h2 h3
    unfold refineHandler
    simp only [h1, h2, h3, Bool.false_eq_true, if_false]
  · intro fetch tryParse apiKey b st base m h1 h2
    unfold variationsHandler
    simp only [h1, h2]
  · intro fetch tryParse apiKey b st code m h1 h2
    unfold analyzeHandler
    simp only [h1, h2]

/-- C3 (witness): the chat handler at a concrete state whose Redis write
throws after a successful save: HTTP 500 with the save retained. -/
theorem handlers_catch_return_500_witness :
    addChatHandler { cleanSessEnv with redisSetFail := some "redis down" } 3 7 1
        { role := "user", content := "hi", metadata := none } { store := [mkDoc 1 7], redis := [] } =
      (⟨500, RBody.err "Failed to add chat message"⟩,
       { store := saveDoc [mkDoc 1 7] (addChatMessage (mkDoc 1 7) "user" "hi" (Json.obj []) 3),
         redis := [] },
       [Ev.dbFindOne, Ev.dbSave, Ev.redisSet ("session:" ++ toString 1) 3600]) :=
  handlers_catch_return_500.2.2.2.2.2.2.2.2.2.2.2.2.1
    { cleanSessEnv with redisSetFail := some "redis down" } 3 7 1
    { role := "user", content := "hi", metadata := none } { store := [mkDoc 1 7], redis := [] }
    (mkDoc 1 7) "redis down" rfl rfl rfl rfl rfl rfl

/-- `s` occurs as a contiguous substring of `t`. -/
def strInfix (s t : String) : Prop := ∃ p q, t = p ++ (s ++ q)

/-- C5 (counterexample): the claim says every preview of a session with
non-empty JSX embeds the user-authored JSX; but when the cleaned code
contains no `return`, `renderPreview` substitutes a placeholder component
instead, and the user's code never reaches the document. -/
theorem preview_embeds_jsx_cex :
    (("const Foo = 1" == "") = false) ∧
    renderPreview { jsx := "const Foo = 1", css := "", tsx := "", version := 1, lastModified := 0 } =
      Preview.frame (htmlContent "" (placeholderJsx "Foo") "Foo") "allow-scripts allow-same-origin" ∧
    containsSub ("const Foo = 1".toList) (htmlContent "" (placeholderJsx "Foo") "Foo").toList = false := by
  refine ⟨rfl, rfl, ?_⟩
  decide

/-- C5 (amended): for every session whose `componentCode.jsx` is non-empty,
the preview assembles an HTML document embedding the session CSS and,
when the import/export-stripped JSX still contains `return`, that cleaned
user JSX (otherwise a placeholder component); the document loads React,
ReactDOM and the Babel standalone transpiler from the unpkg CDN, and is
injected into an iframe carrying
`sandbox="allow-scripts allow-same-origin"`. -/
theorem preview_assembly :
    ∀ (code : ComponentCode) (jsx2 : List Char) (name : String),
      (code.jsx == "") = false →
      jsx2 = stripExports (stripImports (trimChars code.jsx.toList)) →
      name = String.mk ((findName jsx2).getD appName) →
      (containsSub returnLit jsx2 = true →
        renderPreview code =
          Preview.frame (htmlContent code.css (String.mk jsx2) name) "allow-scripts allow-same-origin") ∧
      (containsSub returnLit jsx2 = false →
        renderPreview code =
          Preview.frame (htmlContent code.css (placeholderJsx name) name) "allow-scripts allow-same-origin") ∧
      strInfix code.css (htmlContent code.css (String.mk jsx2) name) ∧
      strInfix (String.mk jsx2) (htmlContent code.css (String.mk jsx2) name) ∧
      strInfix reactCdnUrl (htmlContent code.css (String.mk jsx2) name) ∧
      strInfix reactDomCdnUrl (htmlContent code.css (String.mk jsx2) name) ∧
      strInfix babelCdnUrl (htmlContent code.css (String.mk jsx2) name) := by
  intro code jsx2 name hne hjsx hname
  refine ⟨?_, ?_, ?_, ?_, ?_, ?_, ?_⟩
  · intro hret
    unfold renderPreview
    simp only [hne, Bool.false_eq_true, if_false, ← hjsx, ← hname, hret, if_true]
  · intro hret
    unfold renderPreview
    simp only [hne, Bool.false_eq_true, if_false, ← hjsx, ← hname, hret]
    rfl
  · exact ⟨htmlHead, htmlMidA ++ reactCdnUrl ++ htmlMidB ++ reactDomCdnUrl ++ htmlMidC ++
      babelCdnUrl ++ htmlMidD ++ errorBoundaryStr ++ htmlMidE ++ String.mk jsx2 ++ htmlMidF ++
      name ++ htmlTail, by unfold htmlContent; simp [String.append_assoc]⟩
  · exact ⟨htmlHead ++ code.css ++ htmlMidA ++ reactCdnUrl ++ htmlMidB ++ reactDomCdnUrl ++
      htmlMidC ++ babelCdnUrl ++ htmlMidD ++ errorBoundaryStr ++ htmlMidE,
      htmlMidF ++ name ++ htmlTail, by unfold htmlContent; simp [String.append_assoc]⟩
  · exact ⟨htmlHead ++ code.css ++ htmlMidA, htmlMidB ++ reactDomCdnUrl ++ htmlMidC ++
      babelCdnUrl ++ htmlMidD ++ errorBoundaryStr ++ htmlMidE ++ String.mk jsx2 ++ htmlMidF ++
      name ++ htmlTail, by unfold htmlContent; simp [String.append_assoc]⟩
  · exact ⟨htmlHead ++ code.css ++ htmlMidA ++ reactCdnUrl ++ htmlMidB, htmlMidC ++
      babelCdnUrl ++ htmlMidD ++ errorBoundaryStr ++ htmlMidE ++ String.mk jsx2 ++ htmlMidF ++
      name ++ htmlTail, by unfold htmlContent; simp [String.append_assoc]⟩
  · exact ⟨htmlHead ++ code.css ++ htmlMidA ++ reactCdnUrl ++ htmlMidB ++ reactDomCdnUrl ++
      htmlMidC, htmlMidD ++ errorBoundaryStr ++ htmlMidE ++ String.mk jsx2 ++ htmlMidF ++
      name ++ htmlTail, by unfold htmlContent; simp [String.append_assoc]⟩

/-- A concrete component whose cleaned JSX contains `return`. -/
def previewFixture : ComponentCode :=
  { jsx := "function Foo() \x7b return null \x7d", css := "body \x7b color: red \x7d",
    tsx := "", version := 1, lastModified := 0 }

/-- C5 (witness): the assembly theorem applied at a concrete component
whose cleaned JSX contains `return`. -/
theorem preview_assembly_witness :
    renderPreview previewFixture =
      Preview.frame
        (htmlContent "body \x7b color: red \x7d" "function Foo() \x7b return null \x7d" "Foo")
        "allow-scripts allow-same-origin" := by
  have h := (preview_assembly previewFixture
    ("function Foo() \x7b return null \x7d".toList) "Foo" rfl (by decide) (by decide)).1 (by decide)
  exact h

/-- C10: the POST `/ai/generate` cache key is a function of the prompt
alone (its base64), so a cache hit answers with the cached parsed
response, `cached: true`, and no outbound fetch; and after one successful
generation, a second request whose prompt is equal — whatever its
`existingCode`, `chatHistory` or `sessionId` — made within the 3600-second
TTL returns the first request's parsed response from the cache. -/
theorem ai_cache_key_prompt_only :
    (∀ b b' : GenBody, b.prompt = b'.prompt → aiCacheKey b.prompt = aiCacheKey b'.prompt) ∧
    (∀ env now apiKey b st v, (b.prompt == "") = false → env.getCacheFail = none →
      cacheLookup st.redis now (aiCacheKey b.prompt) = some v →
      generateHandler env now apiKey b st =
        (⟨200, RBody.aiBody true v (some true)⟩, st, [Ev.redisGet (aiCacheKey b.prompt)]) ∧
      (∀ ev ∈ (generateHandler env now apiKey b st).2.2, isFetchEv ev = false)) ∧
    (∀ env1 env2 now1 now2 apiKey1 apiKey2 b1 b2 st text,
      b2.prompt = b1.prompt → (b1.prompt == "") = false →
      env1.getCacheFail = none → cacheLookup st.redis now1 (aiCacheKey b1.prompt) = none →
      callGemini env1.fetch = Except.ok text → env1.setCacheFail = none →
      env2.getCacheFail = none → now2 < now1 + 3600 →
      jsTruthy (parseGenerateText env1.tryParse text) = true →
      generateHandler env2 now2 apiKey2 b2 ((generateHandler env1 now1 apiKey1 b1 st).2.1) =
        (⟨200, RBody.aiBody true (RVal.json (parseGenerateText env1.tryParse text)) (some true)⟩,
         (generateHandler env1 now1 apiKey1 b1 st).2.1,
         [Ev.redisGet (aiCacheKey b1.prompt)])) := by
  refine ⟨fun b b' h => by rw [h], ?_, ?_⟩
  · intro env now apiKey b st v hp hgc hhit
    have heq : generateHandler env now apiKey b st =
        (⟨200, RBody.aiBody true v (some true)⟩, st, [Ev.redisGet (aiCacheKey b.prompt)]) := by
      unfold generateHandler
      simp only [hp, hgc, hhit, Bool.false_eq_true, if_false]
    refine ⟨heq, ?_⟩
    intro ev hev
    rw [heq] at hev
    simp only [List.mem_singleton] at hev
    rw [hev]
    rfl
  · intro env1 env2 now1 now2 apiKey1 apiKey2 b1 b2 st text hpp hp hgc1 hmiss hcall hsc hgc2 h36 htruthy
    have hstate : (generateHandler env1 now1 apiKey1 b1 st).2.1 =
        { store := st.store,
          redis := setCacheTTL st.redis now1 (aiCacheKey b1.prompt)
            (RVal.json (parseGenerateText env1.tryParse text)) 3600 } := by
      unfold generateHandler
      simp only [hp, hgc1, hmiss, hcall, hsc, Bool.false_eq_true, if_false]
    have hkey : aiCacheKey b2.prompt = aiCacheKey b1.prompt := by rw [hpp]
    have hp2 : (b2.prompt == "") = false := by rw [hpp]; exact hp
    have hlook : cacheLookup
        (setCacheTTL st.redis now1 (aiCacheKey b1.prompt)
          (RVal.json (parseGenerateText env1.tryParse text)) 3600) now2 (aiCacheKey b1.prompt)
        = some (RVal.json (parseGenerateText env1.tryParse text)) := by
      unfold cacheLookup getCache setCacheTTL
      rw [rget_rset_self _ _ _ _ _ _ h36]
      simp only [rvalTruthy, htruthy, if_true]
    rw [hstate]
    unfold generateHandler
    simp only [hp2, hgc2, hkey, Bool.false_eq_true, if_false, hlook]

/-- C10 (witness): a concrete pair of requests with the same prompt but
different `existingCode`/`chatHistory`: the second is served from the
cache. -/
theorem ai_cache_key_prompt_only_witness :
    generateHandler
        { getCacheFail := none, setCacheFail := none,
          fetch := { thrown := none, ok := true, status := 200, errMsg := none,
                     result := { candidates := some [{ content := some { parts := some [{ text := "\x7b\x7d" }] } }] } },
          tryParse := fun _ => some (Json.obj []) }
        10 "k2"
        { prompt := "make a button", sessionId := some 2, existingCode := some "something else",
          chatHistory := [{ role := "user", content := "different history" }] }
        ((generateHandler
          { getCacheFail := none, setCacheFail := none,
            fetch := { thrown := none, ok := true, status := 200, errMsg := none,
                       result := { candidates := some [{ content := some { parts := some [{ text := "\x7b\x7d" }] } }] } },
            tryParse := fun _ => some (Json.obj []) }
          0 "k1"
          { prompt := "make a button", sessionId := none, existingCode := none, chatHistory := [] }
          { store := [], redis := [] }).2.1) =
      (⟨200, RBody.aiBody true (RVal.json (Json.obj [])) (some true)⟩,
       (generateHandler
          { getCacheFail := none, setCacheFail := none,
            fetch := { thrown := none, ok := true, status := 200, errMsg := none,
                       result := { candidates := some [{ content := some { parts := some [{ text := "\x7b\x7d" }] } }] } },
            tryParse := fun _ => some (Json.obj []) }
          0 "k1"
          { prompt := "make a button", sessionId := none, existingCode := none, chatHistory := [] }
          { store := [], redis := [] }).2.1,
       [Ev.redisGet (aiCacheKey "make a button")]) :=
  ai_cache_key_prompt_only.2.2
    { getCacheFail := none, setCacheFail := none,
      fetch := { thrown := none, ok := true, status := 200, errMsg := none,
                 result := { candidates := some [{ content := some { parts := some [{ text := "\x7b\x7d" }] } }] } },
      tryParse := fun _ => some (Json.obj []) }
    { getCacheFail := none, setCacheFail := none,
      fetch := { thrown := none, ok := true, status := 200, errMsg := none,
                 result := { candidates := some [{ content := some { parts := some [{ text := "\x7b\x7d" }] } }] } },
      tryParse := fun _ => some (Json.obj []) }
    0 10 "k1" "k2"
    { prompt := "make a button", sessionId := none, existingCode := none, chatHistory := [] }
    { prompt := "make a button", sessionId := some 2, existingCode := some "something else",
      chatHistory := [{ role := "user", content := "different history" }] }
    { store := [], redis := [] } "\x7b\x7d"
    rfl rfl rfl rfl rfl rfl rfl (by decide) rfl
